import Mathlib

/-!
Shallow embedding of the OpenMC geometry locator (src/geometry.cpp) and the
material cross-section engine (src/material.cpp), together with the data
model declared in include/openmc/material.h and include/openmc/nuclide.h.

Modelling conventions:
* C doubles are modelled as rationals; a distance that may be IEEE +INFINITY
  is modelled as `Option ℚ` with `none` standing for +INFINITY.
* Geometric collaborators that live outside the provided sources (surfaces,
  lattice index arithmetic, nuclide data tables) appear as explicit function
  parameters or per-level input records.
* Constants from constants.h (which is not among the provided sources) are
  either parameters (`eps` for FP_REL_PRECISION, `tiny` for TINY_BIT) or
  definitions marked as modelled from the spec.
-/

namespace OpenMC

/-- Modelled from the spec: the `C_NONE` sentinel (−1) from constants.h,
which is not among the provided sources; the spec states the reverse index
holds −1 for absent nuclides. -/
def C_NONE : ℤ := -1

/-- Modelled from the spec: the void material sentinel from constants.h,
which is not among the provided sources. Its concrete value is irrelevant to
the claims; only its role as a distinguished sentinel matters. -/
def MATERIAL_VOID : ℤ := -1

/-! ## Extended distances

`none` models IEEE +INFINITY, `some q` a finite double. -/

/-- Comparison `a < b` on extended distances, as IEEE `<` behaves on
doubles with +INFINITY. -/
def edistLT : Option ℚ → Option ℚ → Bool
  | some a, some b => decide (a < b)
  | some _, none => true
  | none, _ => false

/-- The smaller of two extended distances, ties resolved to the second
argument (mirroring the `if (d_surf < d_lat)` branch structure of
`distance_to_boundary`, where a tie falls into the lattice branch). -/
def edistMin (a b : Option ℚ) : Option ℚ := if edistLT a b then a else b

/-- Test `d < 0` on an extended distance. -/
def edistNeg : Option ℚ → Bool
  | some a => decide (a < 0)
  | none => false

/-- Test that an extended distance is non-negative (vacuously true for
+INFINITY). -/
def edistNonnegB : Option ℚ → Bool
  | some a => decide (0 ≤ a)
  | none => true

/-! ## distance_to_boundary (src/geometry.cpp lines 372-465)

The routine iterates over the particle's live coordinate levels from the
outermost to the innermost. The purely geometric quantities produced by the
cell and lattice collaborators at each level are inputs here: the oncoming
cell-surface distance together with its signed surface id and the cell's
`simple_` flag, the sign of `u ⬝ n(r_hit)` used for the non-simple surface
recomputation, and, when the level sits inside a lattice, the lattice
distance and index translation. -/

/-- Lattice data available at a coordinate level that sits inside a lattice:
the result of `lat.distance(...)` in the source. -/
structure LatticeLevel where
  d_lat : Option ℚ
  trans : ℤ × ℤ × ℤ
deriving DecidableEq

/-- Per-coordinate-level inputs of the `distance_to_boundary` loop. -/
structure Level where
  d_surf : Option ℚ
  surf_cross : ℤ
  simple : Bool
  u_dot_norm_pos : Bool
  lattice : Option LatticeLevel
deriving DecidableEq

/-- State carried by the `distance_to_boundary` loop: the outputs `dist`,
`surface_crossed` (`none` models F90_NONE), `lattice_translation` and
`next_level`, plus the loop-carried variables `d_lat` and `level_lat_trans`
(declared outside the loop in the source, hence carried across levels that
have no lattice) and the lost flag raised by `mark_as_lost`. -/
structure BoundaryState where
  dist : Option ℚ
  surface_crossed : Option ℤ
  lattice_translation : ℤ × ℤ × ℤ
  next_level : ℕ
  d_lat : Option ℚ
  level_lat_trans : ℤ × ℤ × ℤ
  lost : Bool
deriving DecidableEq

/-- Replacement test `*dist == INFINITY || ((*dist) - d)/(*dist) >=
FP_REL_PRECISION` from geometry.cpp lines 429 and 455. IEEE arithmetic at a
zero incumbent is reproduced explicitly: `(0 - c)/0` is +INFINITY for
`c < 0`, −INFINITY for `c > 0` and NaN for `c = 0`, so the comparison with
a finite positive `eps` holds exactly when `c < 0`. -/
def fpReplaceTest (eps : ℚ) : Option ℚ → Option ℚ → Bool
  | none, _ => true
  | _, none => false
  | some q, some c => if q = 0 then decide (c < 0) else decide (eps ≤ (q - c) / q)

/-- Signed surface reported when the surface candidate wins at a level:
for a simple cell the value from `Cell::distance`, otherwise the sign is
recomputed from `u ⬝ n(r_hit)` (geometry.cpp lines 436-447). -/
def surfaceCrossSign (lv : Level) : ℤ :=
  if lv.simple then lv.surf_cross
  else if lv.u_dot_norm_pos then (lv.surf_cross.natAbs : ℤ)
  else -(lv.surf_cross.natAbs : ℤ)

/-- One iteration of the `distance_to_boundary` loop at level index `i`
(0-based), geometry.cpp lines 386-463. -/
def boundaryStep (eps : ℚ) (st : BoundaryState) (i : ℕ) (lv : Level) :
    BoundaryState :=
  let st' :=
    match lv.lattice with
    | none => st
    | some ll =>
        { st with d_lat := ll.d_lat, level_lat_trans := ll.trans,
                  lost := st.lost || edistNeg ll.d_lat }
  if edistLT lv.d_surf st'.d_lat then
    if fpReplaceTest eps st'.dist lv.d_surf then
      { st' with dist := lv.d_surf,
                 surface_crossed := some (surfaceCrossSign lv),
                 lattice_translation := (0, 0, 0),
                 next_level := i + 1 }
    else st'
  else
    if fpReplaceTest eps st'.dist st'.d_lat then
      { st' with dist := st'.d_lat,
                 surface_crossed := none,
                 lattice_translation := st'.level_lat_trans,
                 next_level := i + 1 }
    else st'

/-- Initial loop state (geometry.cpp lines 376-383): `dist` is INFINITY,
the translation is zeroed, `d_lat` starts at INFINITY. `surface_crossed`
and `next_level` are uninitialized in the source and are given fixed
arbitrary initial values here; they are overwritten by the first iteration
whenever at least one level exists, since the replacement test always
succeeds against an infinite incumbent. -/
def initBoundaryState : BoundaryState :=
  { dist := none, surface_crossed := none, lattice_translation := (0, 0, 0),
    next_level := 0, d_lat := none, level_lat_trans := (0, 0, 0),
    lost := false }

/-- Loop of `distance_to_boundary` over the remaining levels, `i` being the
0-based index of the first remaining level. -/
def boundaryLoop (eps : ℚ) : ℕ → BoundaryState → List Level → BoundaryState
  | _, st, [] => st
  | i, st, lv :: rest => boundaryLoop eps (i + 1) (boundaryStep eps st i lv) rest

/-- Model of `distance_to_boundary` (geometry.cpp lines 372-465): fold of
`boundaryStep` over the live coordinate levels, outermost first. `eps`
models the FP_REL_PRECISION constant from constants.h, which is not among
the provided sources. -/
def distance_to_boundary (eps : ℚ) (levels : List Level) : BoundaryState :=
  boundaryLoop eps 0 initBoundaryState levels

/-- Effective lattice distance visible to the comparison at a level: the
level's own lattice distance when the level sits in a lattice, otherwise
the loop-carried value. -/
def effLatDist (st : BoundaryState) (lv : Level) : Option ℚ :=
  match lv.lattice with
  | none => st.d_lat
  | some ll => ll.d_lat

/-- Candidate distance at a level: the smaller of the cell-surface distance
and the (effective) lattice distance. -/
def candDist (st : BoundaryState) (lv : Level) : Option ℚ :=
  edistMin lv.d_surf (effLatDist st lv)

/-- Replacement rule in the words of the specification: the candidate
replaces the incumbent only when the incumbent is infinite or
`(incumbent − candidate)/incumbent ≥ FP_REL_PRECISION`. Stated over the
real (here rational) values; comparison with the source-derived
`fpReplaceTest` is the point of the tie-break claim. -/
def specReplace (eps : ℚ) (inc cand : Option ℚ) : Prop :=
  inc = none ∨ ∃ q c, inc = some q ∧ cand = some c ∧ eps ≤ (q - c) / q

theorem boundaryStep_dist_eq (eps : ℚ) (st : BoundaryState) (i : ℕ)
    (lv : Level) :
    (boundaryStep eps st i lv).dist =
      (if fpReplaceTest eps st.dist (candDist st lv) then candDist st lv
       else st.dist) := by
  unfold boundaryStep candDist effLatDist edistMin
  cases h : lv.lattice with
  | none =>
      by_cases hlt : edistLT lv.d_surf st.d_lat <;>
        simp [hlt] <;> split <;> simp
  | some ll =>
      by_cases hlt : edistLT lv.d_surf ll.d_lat <;>
        simp [hlt] <;> split <;> simp

theorem boundaryStep_d_lat_eq (eps : ℚ) (st : BoundaryState) (i : ℕ)
    (lv : Level) :
    (boundaryStep eps st i lv).d_lat = effLatDist st lv := by
  unfold boundaryStep effLatDist
  cases h : lv.lattice with
  | none => dsimp only; split <;> split <;> rfl
  | some ll => dsimp only; split <;> split <;> rfl

theorem boundaryStep_frozen (eps : ℚ) (st : BoundaryState) (i : ℕ)
    (lv : Level)
    (h : fpReplaceTest eps st.dist (candDist st lv) = false) :
    (boundaryStep eps st i lv).dist = st.dist ∧
    (boundaryStep eps st i lv).surface_crossed = st.surface_crossed ∧
    (boundaryStep eps st i lv).lattice_translation = st.lattice_translation ∧
    (boundaryStep eps st i lv).next_level = st.next_level := by
  unfold boundaryStep
  unfold candDist effLatDist edistMin at h
  cases hl : lv.lattice with
  | none =>
      rw [hl] at h
      by_cases hlt : edistLT lv.d_surf st.d_lat <;> simp [hlt] at h ⊢ <;>
        simp [h]
  | some ll =>
      rw [hl] at h
      by_cases hlt : edistLT lv.d_surf ll.d_lat <;> simp [hlt] at h ⊢ <;>
        simp [h]

theorem fpReplaceTest_self (eps : ℚ) (heps : 0 < eps) (q : ℚ) :
    fpReplaceTest eps (some q) (some q) = false := by
  unfold fpReplaceTest
  by_cases h : q = 0
  · simp [h]
  · simp only [h, if_false, decide_eq_false_iff_not, not_le, sub_self,
      zero_div]
    exact heps

/-- Non-negativity of the minimum of two extended distances. -/
theorem edistNonnegB_min (a b : Option ℚ) (ha : edistNonnegB a = true)
    (hb : edistNonnegB b = true) : edistNonnegB (edistMin a b) = true := by
  unfold edistMin
  split <;> assumption

/-- Equivalence, for a non-negative candidate and a positive tolerance, of
the source's replacement test with the specification's replacement rule. -/
theorem specReplace_iff_fpReplaceTest (eps : ℚ) (heps : 0 < eps)
    (inc cand : Option ℚ) (hc : edistNonnegB cand = true) :
    specReplace eps inc cand ↔ fpReplaceTest eps inc cand = true := by
  cases inc with
  | none => simp [specReplace, fpReplaceTest]
  | some q =>
      cases cand with
      | none =>
          simp [specReplace, fpReplaceTest]
      | some c =>
          unfold edistNonnegB at hc
          simp only [decide_eq_true_eq] at hc
          by_cases hq : q = 0
          · subst hq
            have hfalse : ¬ specReplace eps (some 0) (some c) := by
              rintro (h | ⟨q', c', hq', hc', hle⟩)
              · exact Option.noConfusion h
              · have hq0 : (0 : ℚ) = q' := Option.some.inj hq'
                subst hq0
                rw [div_zero] at hle
                exact absurd hle (not_le.mpr heps)
            have htest : fpReplaceTest eps (some 0) (some c) = false := by
              simp [fpReplaceTest, not_lt.mpr hc]
            rw [htest]
            simp only [Bool.false_eq_true, iff_false]
            exact hfalse
          · simp [specReplace, fpReplaceTest, hq]

/-- C1: in `distance_to_boundary`, one level's processing chooses the
smaller of the cell-surface distance and the (carried) lattice distance as
candidate; the candidate replaces the cross-level incumbent exactly when
the incumbent is infinite or `(incumbent − candidate)/incumbent ≥
FP_REL_PRECISION`; and a candidate numerically coincident with a finite
incumbent never displaces the incumbent's choice (distance, crossed
surface, lattice translation, next level are all unchanged). -/
theorem distance_to_boundary_level_tie_break (eps : ℚ) (heps : 0 < eps)
    (st : BoundaryState) (i : ℕ) (lv : Level)
    (hsurf : edistNonnegB lv.d_surf = true)
    (heff : edistNonnegB (effLatDist st lv) = true) :
    (specReplace eps st.dist (candDist st lv) →
      (boundaryStep eps st i lv).dist = candDist st lv) ∧
    (¬ specReplace eps st.dist (candDist st lv) →
      (boundaryStep eps st i lv).dist = st.dist) ∧
    (∀ q : ℚ, st.dist = some q → candDist st lv = some q →
      (boundaryStep eps st i lv).dist = st.dist ∧
      (boundaryStep eps st i lv).surface_crossed = st.surface_crossed ∧
      (boundaryStep eps st i lv).lattice_translation =
        st.lattice_translation ∧
      (boundaryStep eps st i lv).next_level = st.next_level) := by
  have hcand : edistNonnegB (candDist st lv) = true :=
    edistNonnegB_min _ _ hsurf heff
  have hiff := specReplace_iff_fpReplaceTest eps heps st.dist
    (candDist st lv) hcand
  refine ⟨?_, ?_, ?_⟩
  · intro hrep
    rw [boundaryStep_dist_eq, if_pos (hiff.mp hrep)]
  · intro hrep
    rw [boundaryStep_dist_eq,
      if_neg (fun h => hrep (hiff.mpr h))]
  · intro q hq hcq
    apply boundaryStep_frozen
    rw [hq, hcq]
    exact fpReplaceTest_self eps heps q

/-- Witness for C1 at a concrete coincident configuration: incumbent 1 from
a coarser level, surface distance 1 at the current level, no lattice. -/
theorem distance_to_boundary_level_tie_break_witness :
    (boundaryStep (1 / 2)
      { dist := some 1, surface_crossed := some 4,
        lattice_translation := (0, 0, 0), next_level := 1, d_lat := none,
        level_lat_trans := (0, 0, 0), lost := false } 1
      { d_surf := some 1, surf_cross := 7, simple := true,
        u_dot_norm_pos := true, lattice := none }).surface_crossed =
      some 4 :=
  ((distance_to_boundary_level_tie_break (1 / 2) (by norm_num)
      { dist := some 1, surface_crossed := some 4,
        lattice_translation := (0, 0, 0), next_level := 1, d_lat := none,
        level_lat_trans := (0, 0, 0), lost := false } 1
      { d_surf := some 1, surf_cross := 7, simple := true,
        u_dot_norm_pos := true, lattice := none }
      (by decide) (by decide)).2.2 1 rfl (by decide)).2.1

/-- Level whose lattice collaborator reports a negative crossing distance
while the cell has no oncoming surface. -/
def negLatticeLevel : Level :=
  { d_surf := none, surf_cross := 0, simple := true, u_dot_norm_pos := true,
    lattice := some { d_lat := some (-1), trans := (1, 0, 0) } }

/-- C4 counterexample: when a lattice reports a negative distance, the
source marks the particle lost (geometry.cpp lines 417-422) but then keeps
executing, and the negative distance is still installed as the returned
`dist` (lines 454-462), so the returned distance is negative. -/
theorem distance_to_boundary_neg_counterexample :
    (distance_to_boundary (1 / 10000000) [negLatticeLevel]).dist =
      some (-1) ∧
    (distance_to_boundary (1 / 10000000) [negLatticeLevel]).lost = true ∧
    ¬ (0 : ℚ) ≤ -1 := by
  refine ⟨by decide, by decide, by norm_num⟩

theorem boundaryLoop_nonneg (eps : ℚ) (levels : List Level) :
    ∀ (i : ℕ) (st : BoundaryState), edistNonnegB st.dist = true →
    edistNonnegB st.d_lat = true →
    (∀ lv ∈ levels, edistNonnegB lv.d_surf = true) →
    (∀ lv ∈ levels,
      (lv.lattice.all fun ll => edistNonnegB ll.d_lat) = true) →
    edistNonnegB (boundaryLoop eps i st levels).dist = true := by
  induction levels with
  | nil => intro i st h1 _ _ _; exact h1
  | cons lv rest ih =>
      intro i st h1 h2 hs hl
      have hsurf : edistNonnegB lv.d_surf = true :=
        hs lv (List.mem_cons_self lv rest)
      have hlat : (lv.lattice.all fun ll => edistNonnegB ll.d_lat) = true :=
        hl lv (List.mem_cons_self lv rest)
      have heff : edistNonnegB (effLatDist st lv) = true := by
        unfold effLatDist
        cases h : lv.lattice with
        | none => exact h2
        | some ll => rw [h] at hlat; simpa [Option.all] using hlat
      refine ih (i + 1) (boundaryStep eps st i lv) ?_ ?_ ?_ ?_
      · rw [boundaryStep_dist_eq]
        split
        · exact edistNonnegB_min _ _ hsurf heff
        · exact h1
      · rw [boundaryStep_d_lat_eq]
        exact heff
      · exact fun l hm => hs l (List.mem_cons_of_mem _ hm)
      · exact fun l hm => hl l (List.mem_cons_of_mem _ hm)

/-- C4 amended: provided every level's cell-surface distance and every
lattice distance supplied to the loop is non-negative, the distance
returned by `distance_to_boundary` is non-negative. (The counterexample
shows the unconditional claim fails when a lattice reports a negative
distance: the particle is marked lost but the negative value is still
returned.) -/
theorem distance_to_boundary_nonneg (eps : ℚ) (levels : List Level)
    (hs : ∀ lv ∈ levels, edistNonnegB lv.d_surf = true)
    (hl : ∀ lv ∈ levels,
      (lv.lattice.all fun ll => edistNonnegB ll.d_lat) = true) :
    edistNonnegB (distance_to_boundary eps levels).dist = true :=
  boundaryLoop_nonneg eps levels 0 initBoundaryState (by decide) (by decide)
    hs hl

/-- Witness for C4 at a concrete two-level geometry with non-negative
surface and lattice distances. -/
theorem distance_to_boundary_nonneg_witness :
    edistNonnegB (distance_to_boundary (1 / 10000000)
      [{ d_surf := some 2, surf_cross := 3, simple := true,
         u_dot_norm_pos := true,
         lattice := some { d_lat := some 1, trans := (1, 0, 0) } },
       { d_surf := some 1, surf_cross := -5, simple := false,
         u_dot_norm_pos := false, lattice := none }]).dist = true :=
  distance_to_boundary_nonneg (1 / 10000000) _ (by decide) (by decide)

/-! ## Locator data model (cell.h / lattice.h / particle.h usage in
src/geometry.cpp)

The cell, universe and lattice headers are not among the provided sources;
the structures below carry exactly the attributes geometry.cpp reads or
writes, with the geometric predicates (`contains`, lattice index
arithmetic) as opaque function-valued fields, since their implementations
are external collaborators of the locator. -/

/-- Cell fill type (`FILL_MATERIAL` / `FILL_UNIVERSE` / `FILL_LATTICE`). -/
inductive FillType
  | material
  | universe
  | lattice
deriving DecidableEq

/-- Cell attributes used by the locator. `material_` holds material indices
(with the void sentinel allowed), `rotation_` is empty or the legacy
12-entry array with the row-major rotation matrix at entries 3..11. -/
structure Cell where
  id_ : ℤ
  universe_ : ℤ
  type_ : FillType
  fill_ : ℕ
  material_ : List ℤ
  sqrtkT_ : List ℚ
  translation_ : ℚ × ℚ × ℚ
  rotation_ : List ℚ
  distribcell_index_ : ℕ
  offset_ : List ℤ
  simple_ : Bool
  contains : (ℚ × ℚ × ℚ) → (ℚ × ℚ × ℚ) → ℤ → Bool
  neighbors_ : List ℕ

/-- Lattice operations used by the locator, as opaque functions; `outer_`
is `none` for the NO_OUTER_UNIVERSE sentinel. -/
structure Lattice where
  id_ : ℤ
  are_valid_indices : ℤ × ℤ × ℤ → Bool
  get_indices : (ℚ × ℚ × ℚ) → ℤ × ℤ × ℤ
  get_local_position : (ℚ × ℚ × ℚ) → ℤ × ℤ × ℤ → ℚ × ℚ × ℚ
  univ_at : ℤ × ℤ × ℤ → ℤ
  outer_ : Option ℤ
  offset : ℕ → ℤ × ℤ × ℤ → ℤ

/-- Universe: ordered list of member cell indices. -/
structure Universe where
  id_ : ℤ
  cells_ : List ℕ

/-- Immutable geometric model: the flat registries `model::cells`,
`model::universes`, `model::lattices` and `model::root_universe`.
`tiny_bit` models the TINY_BIT constant from constants.h, which is not
among the provided sources. -/
structure Model where
  cells : List Cell
  universes : List Universe
  lattices : List Lattice
  root_universe : ℤ
  tiny_bit : ℚ

/-- Modelled from the spec: one coordinate frame of the particle
(particle.h is not among the provided sources). `universe` and `cell` are
`C_NONE` when unset; `lattice` stores the lattice index plus one, with `0`
modelling F90_NONE, exactly as geometry.cpp writes `c.fill_ + 1` and
indexes `model::lattices[... - 1]`. -/
structure Coord where
  universe_ : ℤ
  cell : ℤ
  lattice : ℕ
  lattice_x : ℤ
  lattice_y : ℤ
  lattice_z : ℤ
  xyz : ℚ × ℚ × ℚ
  uvw : ℚ × ℚ × ℚ
  rotated : Bool
deriving DecidableEq

/-- Modelled from the spec: the locator's view of the particle (particle.h
is not among the provided sources), with the fields geometry.cpp reads and
writes. -/
structure Particle where
  id : ℤ
  n_coord : ℕ
  coord : List Coord
  surface : ℤ
  material : ℤ
  last_material : ℤ
  sqrtkT : ℚ
  last_sqrtkT : ℚ
  cell_instance : ℤ
  alive : Bool
deriving DecidableEq

/-- Messaging events produced during a locate: `warning(...)`,
`fatal_error(...)` and `mark_as_lost(...)` calls. -/
inductive Event
  | warning
  | fatal
  | lost
deriving DecidableEq

def defaultCoord : Coord :=
  { universe_ := C_NONE, cell := C_NONE, lattice := 0, lattice_x := 0,
    lattice_y := 0, lattice_z := 0, xyz := (0, 0, 0), uvw := (0, 0, 0),
    rotated := false }

def defaultCell : Cell :=
  { id_ := 0, universe_ := 0, type_ := FillType.material, fill_ := 0,
    material_ := [], sqrtkT_ := [], translation_ := (0, 0, 0),
    rotation_ := [], distribcell_index_ := 0, offset_ := [],
    simple_ := true, contains := fun _ _ _ => false, neighbors_ := [] }

def defaultLattice : Lattice :=
  { id_ := 0, are_valid_indices := fun _ => false,
    get_indices := fun _ => (0, 0, 0),
    get_local_position := fun r _ => r, univ_at := fun _ => 0,
    outer_ := none, offset := fun _ _ => 0 }

def defaultUniverse : Universe := { id_ := 0, cells_ := [] }

def Model.cellAt (m : Model) (i : ℕ) : Cell := m.cells.getD i defaultCell

def Model.latAt (m : Model) (i : ℕ) : Lattice :=
  m.lattices.getD i defaultLattice

def Model.univAt (m : Model) (i : ℤ) : Universe :=
  m.universes.getD i.toNat defaultUniverse

def Particle.coordAt (p : Particle) (i : ℕ) : Coord :=
  p.coord.getD i defaultCoord

def Particle.setCoord (p : Particle) (i : ℕ) (c : Coord) : Particle :=
  { p with coord := p.coord.set i c }

/-! ## find_cell_inner (src/geometry.cpp lines 65-265) -/

/-- Candidate cell list for the search at the deepest level: the neighbor
list when one is given, otherwise the cell list of the frame's universe
(geometry.cpp lines 72-94). -/
def candidateCells (m : Model) (p : Particle) (nl : Option (List ℕ)) :
    List ℕ :=
  match nl with
  | some l => l
  | none => (m.univAt (p.coordAt (p.n_coord - 1)).universe_).cells_

/-- Search loop of find_cell_inner (geometry.cpp lines 70-111): the first
candidate lying in the frame's universe whose `contains` accepts the
frame's position, direction and the prior-surface hint. -/
def findCellCandidate (m : Model) (p : Particle) (cands : List ℕ) :
    Option ℕ :=
  cands.find? fun i_cell =>
    decide ((m.cellAt i_cell).universe_ =
      (p.coordAt (p.n_coord - 1)).universe_) &&
    (m.cellAt i_cell).contains (p.coordAt (p.n_coord - 1)).xyz
      (p.coordAt (p.n_coord - 1)).uvw p.surface

/-- Binding of the found cell into the deepest frame (geometry.cpp lines
85 and 106). -/
def boundParticle (p : Particle) (i_cell : ℕ) : Particle :=
  p.setCoord (p.n_coord - 1)
    { p.coordAt (p.n_coord - 1) with cell := (i_cell : ℤ) }

/-- Distribcell instance offset accumulation (geometry.cpp lines 128-142):
walk frames 0 .. n_coord−1, adding the frame cell's precomputed offset for
UNIVERSE fills and the lattice offset at the next frame's indices for
LATTICE fills whose indices are valid. -/
def instanceOffset (m : Model) (p : Particle) (c : Cell) : ℤ :=
  (List.range p.n_coord).foldl
    (fun acc i =>
      let c_i := m.cellAt (p.coordAt i).cell.toNat
      match c_i.type_ with
      | FillType.universe => acc + c_i.offset_.getD c.distribcell_index_ 0
      | FillType.lattice =>
          let co := p.coordAt (i + 1)
          let lat := m.latAt (co.lattice - 1)
          let ixyz := (co.lattice_x, co.lattice_y, co.lattice_z)
          if lat.are_valid_indices ixyz then
            acc + lat.offset c.distribcell_index_ ixyz
          else acc
      | FillType.material => acc) 0

/-- MATERIAL-fill terminal branch of find_cell_inner (geometry.cpp lines
122-168): compute the distribcell instance, then set material and
temperature from the cell's per-instance (or single) entries, respecting
the void sentinel and the one-based particle material index. -/
def bindMaterialCell (m : Model) (p : Particle) (c : Cell) : Particle :=
  let inst : ℤ :=
    if 1 < c.material_.length ∨ 1 < c.sqrtkT_.length then
      instanceOffset m p c
    else 0
  let mat : ℤ :=
    if 1 < c.material_.length then c.material_.getD inst.toNat 0
    else c.material_.getD 0 0
  { p with
    cell_instance := inst,
    last_material := p.material,
    material := if mat = MATERIAL_VOID then MATERIAL_VOID else mat + 1,
    last_sqrtkT := p.sqrtkT,
    sqrtkT :=
      if 1 < c.sqrtkT_.length then c.sqrtkT_.getD inst.toNat 0
      else c.sqrtkT_.getD 0 0 }

/-- Coordinate-frame update for a UNIVERSE fill (geometry.cpp lines
170-212): copy position and direction to the next frame, subtract the
translation, and, when a rotation is present, left-multiply position and
direction by the row-major matrix stored at entries 3..11, marking the
frame rotated. -/
def universeDescend (p : Particle) (c : Cell) : Particle :=
  let prev := p.coordAt (p.n_coord - 1)
  let next0 := p.coordAt p.n_coord
  let r0 : ℚ × ℚ × ℚ :=
    (prev.xyz.1 - c.translation_.1, prev.xyz.2.1 - c.translation_.2.1,
     prev.xyz.2.2 - c.translation_.2.2)
  let u0 := prev.uvw
  let next :=
    if c.rotation_ = ([] : List ℚ) then
      { next0 with universe_ := (c.fill_ : ℤ), xyz := r0, uvw := u0 }
    else
      let g := fun i => c.rotation_.getD i 0
      { next0 with
        universe_ := (c.fill_ : ℤ),
        xyz := (r0.1 * g 3 + r0.2.1 * g 4 + r0.2.2 * g 5,
                r0.1 * g 6 + r0.2.1 * g 7 + r0.2.2 * g 8,
                r0.1 * g 9 + r0.2.1 * g 10 + r0.2.2 * g 11),
        uvw := (u0.1 * g 3 + u0.2.1 * g 4 + u0.2.2 * g 5,
                u0.1 * g 6 + u0.2.1 * g 7 + u0.2.2 * g 8,
                u0.1 * g 9 + u0.2.1 * g 10 + u0.2.2 * g 11),
        rotated := true }
  { p.setCoord p.n_coord next with n_coord := p.n_coord + 1 }

/-- LATTICE-fill frame computation (geometry.cpp lines 219-240): tile
indices from the TINY_BIT-nudged position, local position from the
un-nudged parent position, and the next frame's stored lattice stamp;
returns the indices together witht the next frame before its universe is
assigned. -/
def latticeFrame (m : Model) (p : Particle) (c : Cell) :
    (ℤ × ℤ × ℤ) × Coord :=
  let prev := p.coordAt (p.n_coord - 1)
  let lat := m.latAt c.fill_
  let rn : ℚ × ℚ × ℚ :=
    (prev.xyz.1 + m.tiny_bit * prev.uvw.1,
     prev.xyz.2.1 + m.tiny_bit * prev.uvw.2.1,
     prev.xyz.2.2 + m.tiny_bit * prev.uvw.2.2)
  let ixyz := lat.get_indices rn
  let next0 := p.coordAt p.n_coord
  (ixyz,
   { next0 with
     xyz := lat.get_local_position prev.xyz ixyz,
     uvw := prev.uvw,
     lattice := c.fill_ + 1,
     lattice_x := ixyz.1, lattice_y := ixyz.2.1, lattice_z := ixyz.2.2 })

/-- Model of `find_cell_inner` (geometry.cpp lines 65-265). `fuel` bounds
the recursion depth: the source recurses unboundedly through nested fills
(bounded by MAX_COORD only in well-formed geometries), so the claims below
instantiate `fuel` with at least the remaining nesting depth and concern
the first step. The third component records messaging events. -/
def find_cell_inner (m : Model) :
    ℕ → Particle → Option (List ℕ) → Particle × Bool × List Event
  | 0, p, _ => (p, false, [])
  | fuel + 1, p, nl =>
    match findCellCandidate m p (candidateCells m p nl) with
    | none => (p, false, [])
    | some i_cell =>
        let p1 := boundParticle p i_cell
        let c := m.cellAt i_cell
        match c.type_ with
        | FillType.material => (bindMaterialCell m p1 c, true, [])
        | FillType.universe =>
            find_cell_inner m fuel (universeDescend p1 c) none
        | FillType.lattice =>
            let lat := m.latAt c.fill_
            let fr := latticeFrame m p1 c
            if lat.are_valid_indices fr.1 then
              find_cell_inner m fuel
                { p1.setCoord p1.n_coord
                    { fr.2 with universe_ := lat.univ_at fr.1 } with
                  n_coord := p1.n_coord + 1 } none
            else
              match lat.outer_ with
              | some o =>
                  find_cell_inner m fuel
                    { p1.setCoord p1.n_coord { fr.2 with universe_ := o } with
                      n_coord := p1.n_coord + 1 } none
              | none =>
                  (p1.setCoord p1.n_coord fr.2, false, [Event.warning])

/-- Modelled from the spec: the reset of a deeper coordinate frame
(`Coord::reset` lives in particle.h, which is not among the provided
sources); the spec states deeper frames are cleared of cell id, lattice id
and rotation flag. -/
def Coord.reset (c : Coord) : Coord :=
  { c with cell := C_NONE, lattice := 0, rotated := false }

/-- Model of `find_cell` (geometry.cpp lines 269-307): seed the root
universe when the deepest frame has none, reset the deeper frames, then
search with the previous cell's neighbor list first when requested,
appending newly discovered neighbors. Returns the possibly updated model
(neighbor lists are the only mutable geometry state). -/
def find_cell (m : Model) (fuel : ℕ) (p : Particle)
    (use_neighbor_lists : Bool) : Model × Particle × Bool × List Event :=
  let p :=
    if (p.coordAt (p.n_coord - 1)).universe_ = C_NONE then
      { p.setCoord 0 { p.coordAt 0 with universe_ := m.root_universe } with
        n_coord := 1 }
    else p
  let p :=
    { p with
      coord := p.coord.enum.map fun ic =>
        if p.n_coord ≤ ic.1 then ic.2.reset else ic.2 }
  if use_neighbor_lists then
    let coord_lvl := p.n_coord - 1
    let i_cell := (p.coordAt coord_lvl).cell.toNat
    let c := m.cellAt i_cell
    match find_cell_inner m fuel p (some c.neighbors_) with
    | (p1, true, ev) => (m, p1, true, ev)
    | (p1, false, ev) =>
        match find_cell_inner m fuel p1 none with
        | (p2, true, ev2) =>
            (⟨m.cells.set i_cell
                { m.cellAt i_cell with
                  neighbors_ := (m.cellAt i_cell).neighbors_ ++
                    [(p2.coordAt coord_lvl).cell.toNat] },
              m.universes, m.lattices, m.root_universe, m.tiny_bit⟩,
             p2, true, ev ++ ev2)
        | (p2, false, ev2) => (m, p2, false, ev ++ ev2)
  else
    match find_cell_inner m fuel p none with
    | (p1, f, ev) => (m, p1, f, ev)

theorem find_cell_inner_found_material (m : Model) (p : Particle)
    (nl : Option (List ℕ)) (fuel i_cell : ℕ)
    (hfind : findCellCandidate m p (candidateCells m p nl) = some i_cell)
    (hmat : (m.cellAt i_cell).type_ = FillType.material) :
    find_cell_inner m (fuel + 1) p nl =
      (bindMaterialCell m (boundParticle p i_cell) (m.cellAt i_cell), true,
        []) := by
  unfold find_cell_inner
  rw [hfind]
  simp only [hmat]

/-- C2: when `find_cell_inner` binds a cell with MATERIAL fill, the frame
is terminal: `n_coord` is unchanged, the call returns success and emits no
message; `cell_instance` is 0 when the cell has a single material and a
single √kT and otherwise the sum over frames of UNIVERSE-fill offsets and
valid-index lattice offsets; the particle's material is set from the
cell's material vector at `cell_instance` (broadcast index 0 when the
vector has a single entry), respecting the void sentinel and the one-based
particle material convention, and √kT analogously. -/
theorem find_cell_inner_material_terminal (m : Model) (p : Particle)
    (nl : Option (List ℕ)) (fuel i_cell : ℕ)
    (hfind : findCellCandidate m p (candidateCells m p nl) = some i_cell)
    (hmat : (m.cellAt i_cell).type_ = FillType.material)
    (hm1 : 1 ≤ (m.cellAt i_cell).material_.length)
    (hk1 : 1 ≤ (m.cellAt i_cell).sqrtkT_.length) :
    (find_cell_inner m (fuel + 1) p nl).2.1 = true ∧
    (find_cell_inner m (fuel + 1) p nl).2.2 = [] ∧
    (find_cell_inner m (fuel + 1) p nl).1.n_coord = p.n_coord ∧
    (find_cell_inner m (fuel + 1) p nl).1.cell_instance =
      (if (m.cellAt i_cell).material_.length = 1 ∧
          (m.cellAt i_cell).sqrtkT_.length = 1 then 0
       else instanceOffset m (boundParticle p i_cell) (m.cellAt i_cell)) ∧
    (find_cell_inner m (fuel + 1) p nl).1.last_material = p.material ∧
    (find_cell_inner m (fuel + 1) p nl).1.material =
      (let mat := (m.cellAt i_cell).material_.getD
        (if 1 < (m.cellAt i_cell).material_.length then
          (find_cell_inner m (fuel + 1) p nl).1.cell_instance.toNat
         else 0) 0
       if mat = MATERIAL_VOID then MATERIAL_VOID else mat + 1) ∧
    (find_cell_inner m (fuel + 1) p nl).1.last_sqrtkT = p.sqrtkT ∧
    (find_cell_inner m (fuel + 1) p nl).1.sqrtkT =
      (m.cellAt i_cell).sqrtkT_.getD
        (if 1 < (m.cellAt i_cell).sqrtkT_.length then
          (find_cell_inner m (fuel + 1) p nl).1.cell_instance.toNat
         else 0) 0 := by
  have hres := find_cell_inner_found_material m p nl fuel i_cell hfind hmat
  have hinstiff : ((m.cellAt i_cell).material_.length = 1 ∧
      (m.cellAt i_cell).sqrtkT_.length = 1) ↔
      ¬ (1 < (m.cellAt i_cell).material_.length ∨
         1 < (m.cellAt i_cell).sqrtkT_.length) := by omega
  rw [hres]
  refine ⟨rfl, rfl, ?_, ?_, ?_, ?_, ?_, ?_⟩
  · simp [bindMaterialCell, boundParticle, Particle.setCoord]
  · by_cases h : 1 < (m.cellAt i_cell).material_.length ∨
        1 < (m.cellAt i_cell).sqrtkT_.length
    · rw [if_neg (fun hc => (hinstiff.mp hc) h)]
      simp [bindMaterialCell, h]
    · rw [if_pos (hinstiff.mpr h)]
      simp [bindMaterialCell, h]
  · simp [bindMaterialCell, boundParticle, Particle.setCoord]
  · by_cases h : 1 < (m.cellAt i_cell).material_.length <;>
      simp [bindMaterialCell, h]
  · simp [bindMaterialCell, boundParticle, Particle.setCoord]
  · by_cases h : 1 < (m.cellAt i_cell).sqrtkT_.length <;>
      simp [bindMaterialCell, h]

/-- Concrete one-cell geometry for the C2 witness: a single MATERIAL-fill
cell with one material and one temperature. -/
def cellW2 : Cell :=
  { defaultCell with
    universe_ := 5, type_ := FillType.material, material_ := [2],
    sqrtkT_ := [3], contains := fun _ _ _ => true }

def modelW2 : Model :=
  { cells := [cellW2], universes := [{ id_ := 5, cells_ := [0] }],
    lattices := [], root_universe := 5, tiny_bit := 0 }

def particleW2 : Particle :=
  { id := 1, n_coord := 1,
    coord := [{ defaultCoord with universe_ := 5 }], surface := 0,
    material := 9, last_material := 0, sqrtkT := 7, last_sqrtkT := 0,
    cell_instance := 4, alive := true }

/-- Witness for C2 on the concrete one-cell geometry. -/
theorem find_cell_inner_material_terminal_witness :
    (find_cell_inner modelW2 1 particleW2 (some [0])).2.1 = true ∧
    (find_cell_inner modelW2 1 particleW2 (some [0])).1.n_coord = 1 ∧
    (find_cell_inner modelW2 1 particleW2 (some [0])).1.cell_instance = 0 :=
  let h := find_cell_inner_material_terminal modelW2 particleW2 (some [0])
    0 0 rfl rfl (by decide) (by decide)
  ⟨h.1, h.2.2.1, by rw [h.2.2.2.1]; decide⟩

theorem find_cell_inner_found_lattice_no_outer (m : Model) (p : Particle)
    (nl : Option (List ℕ)) (fuel i_cell : ℕ)
    (hfind : findCellCandidate m p (candidateCells m p nl) = some i_cell)
    (hlat : (m.cellAt i_cell).type_ = FillType.lattice)
    (hinvalid : (m.latAt (m.cellAt i_cell).fill_).are_valid_indices
      (latticeFrame m (boundParticle p i_cell) (m.cellAt i_cell)).1 =
      false)
    (houter : (m.latAt (m.cellAt i_cell).fill_).outer_ = none) :
    find_cell_inner m (fuel + 1) p nl =
      ((boundParticle p i_cell).setCoord (boundParticle p i_cell).n_coord
        (latticeFrame m (boundParticle p i_cell) (m.cellAt i_cell)).2,
       false, [Event.warning]) := by
  unfold find_cell_inner
  rw [hfind]
  simp only [hlat, hinvalid, houter, Bool.false_eq_true, if_false]

/-- C8: during descent into a LATTICE fill whose computed tile indices are
invalid while the lattice has no outer universe, `find_cell_inner` emits a
warning (and no fatal error) and returns failure without incrementing
`n_coord`. -/
theorem find_cell_inner_lattice_no_outer (m : Model) (p : Particle)
    (nl : Option (List ℕ)) (fuel i_cell : ℕ)
    (hfind : findCellCandidate m p (candidateCells m p nl) = some i_cell)
    (hlat : (m.cellAt i_cell).type_ = FillType.lattice)
    (hinvalid : (m.latAt (m.cellAt i_cell).fill_).are_valid_indices
      (latticeFrame m (boundParticle p i_cell) (m.cellAt i_cell)).1 =
      false)
    (houter : (m.latAt (m.cellAt i_cell).fill_).outer_ = none) :
    (find_cell_inner m (fuel + 1) p nl).2.1 = false ∧
    (find_cell_inner m (fuel + 1) p nl).2.2 = [Event.warning] ∧
    Event.fatal ∉ (find_cell_inner m (fuel + 1) p nl).2.2 ∧
    (find_cell_inner m (fuel + 1) p nl).1.n_coord = p.n_coord := by
  rw [find_cell_inner_found_lattice_no_outer m p nl fuel i_cell hfind hlat
    hinvalid houter]
  refine ⟨rfl, rfl, ?_, ?_⟩
  · simp
  · simp [Particle.setCoord, boundParticle]

/-- Concrete geometry for the C8 witness: one LATTICE-fill cell over a
lattice that rejects all indices and has no outer universe. -/
def latticeW8 : Lattice :=
  { defaultLattice with
    id_ := 3, are_valid_indices := fun _ => false, outer_ := none }

def modelW8 : Model :=
  { cells :=
      [{ defaultCell with
         universe_ := 0, type_ := FillType.lattice, fill_ := 0,
         contains := fun _ _ _ => true }],
    universes := [{ id_ := 0, cells_ := [0] }], lattices := [latticeW8],
    root_universe := 0, tiny_bit := 0 }

def particleW8 : Particle :=
  { id := 2, n_coord := 1,
    coord := [{ defaultCoord with universe_ := 0 }, defaultCoord],
    surface := 0, material := 0, last_material := 0, sqrtkT := 0,
    last_sqrtkT := 0, cell_instance := 0, alive := true }

/-- Witness for C8 on the concrete no-outer lattice geometry. -/
theorem find_cell_inner_lattice_no_outer_witness :
    (find_cell_inner modelW8 1 particleW8 none).2.1 = false ∧
    (find_cell_inner modelW8 1 particleW8 none).2.2 = [Event.warning] ∧
    (find_cell_inner modelW8 1 particleW8 none).1.n_coord = 1 :=
  let h := find_cell_inner_lattice_no_outer modelW8 particleW8 none 0 0
    rfl rfl rfl rfl
  ⟨h.1, h.2.1, h.2.2.2⟩

/-! ## Material data model (include/openmc/material.h,
include/openmc/nuclide.h) and cross-section engine (src/material.cpp) -/

/-- Nuclide attributes consumed from the nuclide collaborator
(nuclide.h): name (an abstract token), atomic weight ratio,
fissionability. -/
structure NuclideData where
  name : ℕ
  awr : ℚ
  fissionable : Bool
deriving DecidableEq

def defaultNuclide : NuclideData := { name := 0, awr := 0, fissionable := false }

/-- Thermal scattering table assignment (material.h lines 39-43). -/
structure ThermalTable where
  index_table : ℕ
  index_nuclide : ℕ
  fraction : ℚ
deriving DecidableEq

def defaultThermalTable : ThermalTable :=
  { index_table := 0, index_nuclide := 0, fraction := 0 }

/-- Material attributes (material.h lines 35-106), restricted to the
fields the provided sources read or write. -/
structure Material where
  id_ : ℤ
  nuclide_ : List ℕ
  element_ : List ℕ
  atom_density_ : List ℚ
  density_ : ℚ
  density_gpcc_ : ℚ
  volume_ : ℚ
  fissionable_ : Bool
  depletable_ : Bool
  mat_nuclide_index_ : List ℤ
  thermal_tables_ : List ThermalTable
  temperature_ : ℚ
deriving DecidableEq

def emptyMaterial : Material :=
  { id_ := 0, nuclide_ := [], element_ := [], atom_density_ := [],
    density_ := 0, density_gpcc_ := 0, volume_ := -1,
    fissionable_ := false, depletable_ := false, mat_nuclide_index_ := [],
    thermal_tables_ := [], temperature_ := -1 }

/-- Cached microscopic neutron cross sections (nuclide.h lines 34-65),
restricted to the fields material.cpp reads: the four accumulated cross
sections and the (last_E, last_sqrtkT, index_sab, sab_frac) validity
key. -/
structure NuclideMicroXS where
  total : ℚ
  absorption : ℚ
  fission : ℚ
  nu_fission : ℚ
  index_sab : ℤ
  sab_frac : ℚ
  last_E : ℚ
  last_sqrtkT : ℚ
deriving DecidableEq

/-- Cached microscopic photon cross sections of an element, restricted to
the fields material.cpp reads (the element cache type lives in photon.h,
outside the provided sources; the fields are those used at material.cpp
lines 748-764). -/
structure ElementMicroXS where
  total : ℚ
  coherent : ℚ
  incoherent : ℚ
  photoelectric : ℚ
  pair_production : ℚ
  last_E : ℚ
deriving DecidableEq

/-- Macroscopic cross-section accumulator `MaterialMacroXS` (nuclide.h
lines 72-84). -/
structure MaterialMacroXS where
  total : ℚ
  absorption : ℚ
  fission : ℚ
  nu_fission : ℚ
  photon_prod : ℚ
  coherent : ℚ
  incoherent : ℚ
  photoelectric : ℚ
  pair_production : ℚ
deriving DecidableEq

/-- External data and collaborator behaviour of the cross-section engine:
the global nuclide table, thermal-table thresholds, the logarithmic
energy-grid lookup (transcendental in the source, hence abstract), and the
cache-refresh actions. `nuclideRefresh i_nuclide i_sab E i_grid sqrtkT
sab_frac` models `data::nuclides[i_nuclide]->calculate_xs(...)` returning
the refreshed thread-local entry for that nuclide; `elementRefresh` models
`data::elements[i_element].calculate_xs(E)`. -/
structure DataEnv where
  nuclides : List NuclideData
  sab_threshold : ℕ → ℚ
  log_grid_index : ℚ → ℤ
  nuclideRefresh : ℕ → ℤ → ℚ → ℤ → ℚ → ℚ → NuclideMicroXS
  elementRefresh : ℕ → ℚ → ElementMicroXS

/-- Particle type codes, in the order of the ParticleType enum (particle.h
is not among the provided sources; nuclide.h line 188 records that the
per-type arrays are ordered by that enum, neutron first). -/
def NEUTRON : ℤ := 0

def PHOTON : ℤ := 1

/-- State threaded through the neutron accumulation loop: the per-thread
micro cache (indexed by global nuclide id), the cursor `j` into
`thermal_tables_`, the `check_sab` flag, the macroscopic accumulator, and
the log of nuclide refresh invocations (in loop order). -/
structure NeutronLoopState where
  micro_xs : ℕ → NuclideMicroXS
  j : ℕ
  check_sab : Bool
  macro_xs : MaterialMacroXS
  invoked : List ℕ

/-- S(a,b) binding for local nuclide `i` (material.cpp lines 678-700):
when the cursor entry's nuclide matches `i`, bind its table index and
fraction, disable the table above its energy threshold, advance the
cursor, and clear `check_sab` once the cursor leaves the list; otherwise
bind (C_NONE, 0). Returns ((i_sab, sab_frac), j, check_sab). -/
def sabBinding (mat : Material) (env : DataEnv) (E : ℚ) (check_sab : Bool)
    (j : ℕ) (i : ℕ) : (ℤ × ℚ) × ℕ × Bool :=
  if check_sab then
    let sab := mat.thermal_tables_.getD j defaultThermalTable
    if i = sab.index_nuclide then
      let i_sab : ℤ :=
        if env.sab_threshold sab.index_table < E then C_NONE
        else (sab.index_table : ℤ)
      ((i_sab, sab.fraction), j + 1,
        decide (j + 1 ≠ mat.thermal_tables_.length))
    else ((C_NONE, 0), j, check_sab)
  else ((C_NONE, 0), j, check_sab)

/-- One iteration of the neutron accumulation loop at local nuclide `i`
(material.cpp lines 674-729): bind S(a,b) data, refresh the nuclide's
micro cache when any of (E, √kT, i_sab, sab_frac) differs from the stored
tuple, and accumulate the macroscopic contributions weighted by the
nuclide's atom density. -/
def neutronStep (mat : Material) (env : DataEnv) (E sqrtkT : ℚ)
    (i_grid : ℤ) (st : NeutronLoopState) (i : ℕ) : NeutronLoopState :=
  let sb := sabBinding mat env E st.check_sab st.j i
  let i_sab := sb.1.1
  let sab_frac := sb.1.2
  let i_nuclide := mat.nuclide_.getD i 0
  let cached := st.micro_xs i_nuclide
  let mismatch : Bool :=
    decide (E ≠ cached.last_E) || decide (sqrtkT ≠ cached.last_sqrtkT) ||
    decide (i_sab ≠ cached.index_sab) || decide (sab_frac ≠ cached.sab_frac)
  let micro :=
    if mismatch then
      env.nuclideRefresh i_nuclide i_sab E i_grid sqrtkT sab_frac
    else cached
  let ad := mat.atom_density_.getD i 0
  { micro_xs :=
      if mismatch then Function.update st.micro_xs i_nuclide micro
      else st.micro_xs,
    j := sb.2.1,
    check_sab := sb.2.2,
    macro_xs :=
      { st.macro_xs with
        total := st.macro_xs.total + ad * micro.total,
        absorption := st.macro_xs.absorption + ad * micro.absorption,
        fission := st.macro_xs.fission + ad * micro.fission,
        nu_fission := st.macro_xs.nu_fission + ad * micro.nu_fission },
    invoked := if mismatch then st.invoked ++ [i_nuclide] else st.invoked }

/-- Model of `Material::calculate_neutron_xs` (material.cpp lines
660-730). -/
def Material.calculate_neutron_xs (mat : Material) (env : DataEnv)
    (E sqrtkT : ℚ) (micro_xs : ℕ → NuclideMicroXS)
    (macro_xs : MaterialMacroXS) : NeutronLoopState :=
  let i_grid := env.log_grid_index E
  (List.range mat.nuclide_.length).foldl
    (neutronStep mat env E sqrtkT i_grid)
    { micro_xs := micro_xs, j := 0,
      check_sab := decide (0 < mat.thermal_tables_.length),
      macro_xs := macro_xs, invoked := [] }

/-- State threaded through the photon accumulation loop. -/
structure PhotonLoopState where
  micro_photon_xs : ℕ → ElementMicroXS
  macro_xs : MaterialMacroXS
  invoked : List ℕ

/-- One iteration of the photon accumulation loop at local nuclide `i`
(material.cpp lines 740-765). -/
def photonStep (mat : Material) (env : DataEnv) (E : ℚ)
    (st : PhotonLoopState) (i : ℕ) : PhotonLoopState :=
  let i_element := mat.element_.getD i 0
  let cached := st.micro_photon_xs i_element
  let mismatch : Bool := decide (E ≠ cached.last_E)
  let micro := if mismatch then env.elementRefresh i_element E else cached
  let ad := mat.atom_density_.getD i 0
  { micro_photon_xs :=
      if mismatch then Function.update st.micro_photon_xs i_element micro
      else st.micro_photon_xs,
    macro_xs :=
      { st.macro_xs with
        total := st.macro_xs.total + ad * micro.total,
        coherent := st.macro_xs.coherent + ad * micro.coherent,
        incoherent := st.macro_xs.incoherent + ad * micro.incoherent,
        photoelectric :=
          st.macro_xs.photoelectric + ad * micro.photoelectric,
        pair_production :=
          st.macro_xs.pair_production + ad * micro.pair_production },
    invoked := if mismatch then st.invoked ++ [i_element] else st.invoked }

/-- Model of `Material::calculate_photon_xs` (material.cpp lines 732-766):
zero the four photon partials, then accumulate per local nuclide via the
element cache. -/
def Material.calculate_photon_xs (mat : Material) (env : DataEnv) (E : ℚ)
    (micro_photon_xs : ℕ → ElementMicroXS) (macro_xs : MaterialMacroXS) :
    PhotonLoopState :=
  (List.range mat.nuclide_.length).foldl (photonStep mat env E)
    { micro_photon_xs := micro_photon_xs,
      macro_xs :=
        { macro_xs with
          coherent := 0, incoherent := 0, photoelectric := 0,
          pair_production := 0 },
      invoked := [] }

/-- Result of Material::calculate_xs: the updated per-thread accumulator
and both caches. -/
structure CalcXSResult where
  macro_xs : MaterialMacroXS
  micro_xs : ℕ → NuclideMicroXS
  micro_photon_xs : ℕ → ElementMicroXS

/-- Model of `Material::calculate_xs` (material.cpp lines 645-658): zero
the four core accumulator fields, then dispatch on the particle type. -/
def Material.calculate_xs (mat : Material) (env : DataEnv) (ptype : ℤ)
    (E sqrtkT : ℚ) (micro_xs : ℕ → NuclideMicroXS)
    (micro_photon_xs : ℕ → ElementMicroXS) (macro_xs : MaterialMacroXS) :
    CalcXSResult :=
  let macro0 :=
    { macro_xs with
      total := 0, absorption := 0, fission := 0, nu_fission := 0 }
  if ptype = NEUTRON then
    let r := mat.calculate_neutron_xs env E sqrtkT micro_xs macro0
    { macro_xs := r.macro_xs, micro_xs := r.micro_xs,
      micro_photon_xs := micro_photon_xs }
  else if ptype = PHOTON then
    let r := mat.calculate_photon_xs env E micro_photon_xs macro0
    { macro_xs := r.macro_xs, micro_xs := micro_xs,
      micro_photon_xs := r.micro_photon_xs }
  else
    { macro_xs := macro0, micro_xs := micro_xs,
      micro_photon_xs := micro_photon_xs }

/-- Lookup key (i_sab, sab_frac) requested at local slot `i` of the
neutron loop, given the loop state's cursor. -/
def neutronRequest (mat : Material) (env : DataEnv) (E : ℚ)
    (st : NeutronLoopState) (i : ℕ) : ℤ × ℚ :=
  (sabBinding mat env E st.check_sab st.j i).1

/-- Cache entry consulted at local slot `i` of the neutron loop. -/
def neutronCached (mat : Material) (st : NeutronLoopState) (i : ℕ) :
    NuclideMicroXS :=
  st.micro_xs (mat.nuclide_.getD i 0)

/-- C3: at every local nuclide of the neutron loop, the nuclide's
microscopic refresh is invoked (appended to the invocation log) exactly
when at least one of (E, √kT, i_sab, sab_frac) differs from the tuple
stored in that nuclide's micro_xs entry; when all four coincide, the
invocation log and the whole micro cache are left unchanged, so the cached
values are used as they stand. -/
theorem calculate_neutron_xs_cache_guard (mat : Material) (env : DataEnv)
    (E sqrtkT : ℚ) (i_grid : ℤ) (st : NeutronLoopState) (i : ℕ) :
    ((neutronStep mat env E sqrtkT i_grid st i).invoked =
        st.invoked ++ [mat.nuclide_.getD i 0] ↔
      (E, sqrtkT, (neutronRequest mat env E st i).1,
        (neutronRequest mat env E st i).2) ≠
      ((neutronCached mat st i).last_E,
        (neutronCached mat st i).last_sqrtkT,
        (neutronCached mat st i).index_sab,
        (neutronCached mat st i).sab_frac)) ∧
    ((E, sqrtkT, (neutronRequest mat env E st i).1,
        (neutronRequest mat env E st i).2) =
      ((neutronCached mat st i).last_E,
        (neutronCached mat st i).last_sqrtkT,
        (neutronCached mat st i).index_sab,
        (neutronCached mat st i).sab_frac) →
      (neutronStep mat env E sqrtkT i_grid st i).invoked = st.invoked ∧
      (neutronStep mat env E sqrtkT i_grid st i).micro_xs = st.micro_xs) := by
  have hinv : (neutronStep mat env E sqrtkT i_grid st i).invoked =
      (if (decide (E ≠ (neutronCached mat st i).last_E) ||
           decide (sqrtkT ≠ (neutronCached mat st i).last_sqrtkT) ||
           decide ((neutronRequest mat env E st i).1 ≠
             (neutronCached mat st i).index_sab) ||
           decide ((neutronRequest mat env E st i).2 ≠
             (neutronCached mat st i).sab_frac)) = true then
        st.invoked ++ [mat.nuclide_.getD i 0] else st.invoked) := rfl
  have hmx : (neutronStep mat env E sqrtkT i_grid st i).micro_xs =
      (if (decide (E ≠ (neutronCached mat st i).last_E) ||
           decide (sqrtkT ≠ (neutronCached mat st i).last_sqrtkT) ||
           decide ((neutronRequest mat env E st i).1 ≠
             (neutronCached mat st i).index_sab) ||
           decide ((neutronRequest mat env E st i).2 ≠
             (neutronCached mat st i).sab_frac)) = true then
        Function.update st.micro_xs (mat.nuclide_.getD i 0)
          (if (decide (E ≠ (neutronCached mat st i).last_E) ||
               decide (sqrtkT ≠ (neutronCached mat st i).last_sqrtkT) ||
               decide ((neutronRequest mat env E st i).1 ≠
                 (neutronCached mat st i).index_sab) ||
               decide ((neutronRequest mat env E st i).2 ≠
                 (neutronCached mat st i).sab_frac)) = true then
            env.nuclideRefresh (mat.nuclide_.getD i 0)
              (neutronRequest mat env E st i).1 E i_grid sqrtkT
              (neutronRequest mat env E st i).2
           else neutronCached mat st i)
       else st.micro_xs) := rfl
  have hkey : ((decide (E ≠ (neutronCached mat st i).last_E) ||
      decide (sqrtkT ≠ (neutronCached mat st i).last_sqrtkT) ||
      decide ((neutronRequest mat env E st i).1 ≠
        (neutronCached mat st i).index_sab) ||
      decide ((neutronRequest mat env E st i).2 ≠
        (neutronCached mat st i).sab_frac)) = true) ↔
      (E, sqrtkT, (neutronRequest mat env E st i).1,
        (neutronRequest mat env E st i).2) ≠
      ((neutronCached mat st i).last_E,
        (neutronCached mat st i).last_sqrtkT,
        (neutronCached mat st i).index_sab,
        (neutronCached mat st i).sab_frac) := by
    simp only [Bool.or_eq_true, decide_eq_true_eq, ne_eq, Prod.mk.injEq,
      not_and]
    tauto
  by_cases hmm : (decide (E ≠ (neutronCached mat st i).last_E) ||
      decide (sqrtkT ≠ (neutronCached mat st i).last_sqrtkT) ||
      decide ((neutronRequest mat env E st i).1 ≠
        (neutronCached mat st i).index_sab) ||
      decide ((neutronRequest mat env E st i).2 ≠
        (neutronCached mat st i).sab_frac)) = true
  · rw [hinv, if_pos hmm] at *
    refine ⟨iff_of_true rfl (hkey.mp hmm), fun heq => absurd heq ?_⟩
    exact hkey.mp hmm
  · rw [hinv, if_neg hmm, hmx, if_neg hmm]
    refine ⟨iff_of_false ?_ fun hne => hmm (hkey.mpr hne),
      fun _ => ⟨rfl, rfl⟩⟩
    intro h
    have := congrArg List.length h
    simp at this

/-- Zero-valued micro cache entry. -/
def microZero : NuclideMicroXS :=
  { total := 0, absorption := 0, fission := 0, nu_fission := 0,
    index_sab := -1, sab_frac := 0, last_E := 0, last_sqrtkT := 0 }

/-- Zero-valued element cache entry. -/
def elemZero : ElementMicroXS :=
  { total := 0, coherent := 0, incoherent := 0, photoelectric := 0,
    pair_production := 0, last_E := 0 }

/-- Trivial data environment for concrete witnesses. -/
def envW : DataEnv :=
  { nuclides := [{ name := 10, awr := 2, fissionable := false }],
    sab_threshold := fun _ => 0, log_grid_index := fun _ => 0,
    nuclideRefresh := fun _ _ _ _ _ _ => microZero,
    elementRefresh := fun _ _ => elemZero }

/-- Material with one local nuclide and no thermal tables, for witnesses. -/
def matW3 : Material :=
  { emptyMaterial with
    nuclide_ := [0], atom_density_ := [5], density_ := 5 }

def stW3 : NeutronLoopState :=
  { micro_xs := fun _ => microZero, j := 0, check_sab := false,
    macro_xs :=
      { total := 0, absorption := 0, fission := 0, nu_fission := 0,
        photon_prod := 0, coherent := 0, incoherent := 0,
        photoelectric := 0, pair_production := 0 },
    invoked := [] }

/-- Witness for C3: with a matching cached tuple, the refresh is not
invoked and the cache is untouched. -/
theorem calculate_neutron_xs_cache_guard_witness :
    (neutronStep matW3 envW 0 0 0 stW3 0).invoked = [] ∧
    (neutronStep matW3 envW 0 0 0 stW3 0).micro_xs = stW3.micro_xs :=
  (calculate_neutron_xs_cache_guard matW3 envW 0 0 0 stW3 0).2 rfl

theorem neutronStep_congr (mat : Material) (env : DataEnv) (E sqrtkT : ℚ)
    (i_grid : ℤ) (x y : NeutronLoopState) (i : ℕ)
    (h1 : x.micro_xs = y.micro_xs) (h2 : x.j = y.j)
    (h3 : x.check_sab = y.check_sab)
    (h4 : x.macro_xs.total = y.macro_xs.total)
    (h5 : x.macro_xs.absorption = y.macro_xs.absorption)
    (h6 : x.macro_xs.fission = y.macro_xs.fission)
    (h7 : x.macro_xs.nu_fission = y.macro_xs.nu_fission) :
    (neutronStep mat env E sqrtkT i_grid x i).micro_xs =
      (neutronStep mat env E sqrtkT i_grid y i).micro_xs ∧
    (neutronStep mat env E sqrtkT i_grid x i).j =
      (neutronStep mat env E sqrtkT i_grid y i).j ∧
    (neutronStep mat env E sqrtkT i_grid x i).check_sab =
      (neutronStep mat env E sqrtkT i_grid y i).check_sab ∧
    (neutronStep mat env E sqrtkT i_grid x i).macro_xs.total =
      (neutronStep mat env E sqrtkT i_grid y i).macro_xs.total ∧
    (neutronStep mat env E sqrtkT i_grid x i).macro_xs.absorption =
      (neutronStep mat env E sqrtkT i_grid y i).macro_xs.absorption ∧
    (neutronStep mat env E sqrtkT i_grid x i).macro_xs.fission =
      (neutronStep mat env E sqrtkT i_grid y i).macro_xs.fission ∧
    (neutronStep mat env E sqrtkT i_grid x i).macro_xs.nu_fission =
      (neutronStep mat env E sqrtkT i_grid y i).macro_xs.nu_fission := by
  simp [neutronStep, h1, h2, h3, h4, h5, h6, h7]

theorem neutronFold_congr (mat : Material) (env : DataEnv) (E sqrtkT : ℚ)
    (i_grid : ℤ) :
    ∀ (l : List ℕ) (x y : NeutronLoopState),
    x.micro_xs = y.micro_xs → x.j = y.j → x.check_sab = y.check_sab →
    x.macro_xs.total = y.macro_xs.total →
    x.macro_xs.absorption = y.macro_xs.absorption →
    x.macro_xs.fission = y.macro_xs.fission →
    x.macro_xs.nu_fission = y.macro_xs.nu_fission →
    (List.foldl (neutronStep mat env E sqrtkT i_grid) x l).macro_xs.total =
      (List.foldl (neutronStep mat env E sqrtkT i_grid) y l).macro_xs.total ∧
    (List.foldl (neutronStep mat env E sqrtkT i_grid) x
        l).macro_xs.absorption =
      (List.foldl (neutronStep mat env E sqrtkT i_grid) y
        l).macro_xs.absorption ∧
    (List.foldl (neutronStep mat env E sqrtkT i_grid) x l).macro_xs.fission =
      (List.foldl (neutronStep mat env E sqrtkT i_grid) y
        l).macro_xs.fission ∧
    (List.foldl (neutronStep mat env E sqrtkT i_grid) x
        l).macro_xs.nu_fission =
      (List.foldl (neutronStep mat env E sqrtkT i_grid) y
        l).macro_xs.nu_fission := by
  intro l
  induction l with
  | nil => intro x y _ _ _ h4 h5 h6 h7; exact ⟨h4, h5, h6, h7⟩
  | cons a t ih =>
      intro x y h1 h2 h3 h4 h5 h6 h7
      have hs := neutronStep_congr mat env E sqrtkT i_grid x y a h1 h2 h3
        h4 h5 h6 h7
      exact ih (neutronStep mat env E sqrtkT i_grid x a)
        (neutronStep mat env E sqrtkT i_grid y a) hs.1 hs.2.1 hs.2.2.1
        hs.2.2.2.1 hs.2.2.2.2.1 hs.2.2.2.2.2.1 hs.2.2.2.2.2.2

theorem neutronFold_frame (mat : Material) (env : DataEnv) (E sqrtkT : ℚ)
    (i_grid : ℤ) :
    ∀ (l : List ℕ) (st : NeutronLoopState),
    (List.foldl (neutronStep mat env E sqrtkT i_grid) st
        l).macro_xs.photon_prod = st.macro_xs.photon_prod ∧
    (List.foldl (neutronStep mat env E sqrtkT i_grid) st
        l).macro_xs.coherent = st.macro_xs.coherent ∧
    (List.foldl (neutronStep mat env E sqrtkT i_grid) st
        l).macro_xs.incoherent = st.macro_xs.incoherent ∧
    (List.foldl (neutronStep mat env E sqrtkT i_grid) st
        l).macro_xs.photoelectric = st.macro_xs.photoelectric ∧
    (List.foldl (neutronStep mat env E sqrtkT i_grid) st
        l).macro_xs.pair_production = st.macro_xs.pair_production := by
  intro l
  induction l with
  | nil => intro st; exact ⟨rfl, rfl, rfl, rfl, rfl⟩
  | cons a t ih => intro st; exact ih (neutronStep mat env E sqrtkT i_grid st a)

theorem photonStep_congr (mat : Material) (env : DataEnv) (E : ℚ)
    (x y : PhotonLoopState) (i : ℕ)
    (h1 : x.micro_photon_xs = y.micro_photon_xs)
    (h2 : x.macro_xs.total = y.macro_xs.total)
    (h3 : x.macro_xs.coherent = y.macro_xs.coherent)
    (h4 : x.macro_xs.incoherent = y.macro_xs.incoherent)
    (h5 : x.macro_xs.photoelectric = y.macro_xs.photoelectric)
    (h6 : x.macro_xs.pair_production = y.macro_xs.pair_production) :
    (photonStep mat env E x i).micro_photon_xs =
      (photonStep mat env E y i).micro_photon_xs ∧
    (photonStep mat env E x i).macro_xs.total =
      (photonStep mat env E y i).macro_xs.total ∧
    (photonStep mat env E x i).macro_xs.coherent =
      (photonStep mat env E y i).macro_xs.coherent ∧
    (photonStep mat env E x i).macro_xs.incoherent =
      (photonStep mat env E y i).macro_xs.incoherent ∧
    (photonStep mat env E x i).macro_xs.photoelectric =
      (photonStep mat env E y i).macro_xs.photoelectric ∧
    (photonStep mat env E x i).macro_xs.pair_production =
      (photonStep mat env E y i).macro_xs.pair_production := by
  simp [photonStep, h1, h2, h3, h4, h5, h6]

theorem photonFold_congr (mat : Material) (env : DataEnv) (E : ℚ) :
    ∀ (l : List ℕ) (x y : PhotonLoopState),
    x.micro_photon_xs = y.micro_photon_xs →
    x.macro_xs.total = y.macro_xs.total →
    x.macro_xs.coherent = y.macro_xs.coherent →
    x.macro_xs.incoherent = y.macro_xs.incoherent →
    x.macro_xs.photoelectric = y.macro_xs.photoelectric →
    x.macro_xs.pair_production = y.macro_xs.pair_production →
    (List.foldl (photonStep mat env E) x l).macro_xs.total =
      (List.foldl (photonStep mat env E) y l).macro_xs.total ∧
    (List.foldl (photonStep mat env E) x l).macro_xs.coherent =
      (List.foldl (photonStep mat env E) y l).macro_xs.coherent ∧
    (List.foldl (photonStep mat env E) x l).macro_xs.incoherent =
      (List.foldl (photonStep mat env E) y l).macro_xs.incoherent ∧
    (List.foldl (photonStep mat env E) x l).macro_xs.photoelectric =
      (List.foldl (photonStep mat env E) y l).macro_xs.photoelectric ∧
    (List.foldl (photonStep mat env E) x l).macro_xs.pair_production =
      (List.foldl (photonStep mat env E) y l).macro_xs.pair_production := by
  intro l
  induction l with
  | nil => intro x y _ h2 h3 h4 h5 h6; exact ⟨h2, h3, h4, h5, h6⟩
  | cons a t ih =>
      intro x y h1 h2 h3 h4 h5 h6
      have hs := photonStep_congr mat env E x y a h1 h2 h3 h4 h5 h6
      exact ih (photonStep mat env E x a) (photonStep mat env E y a) hs.1
        hs.2.1 hs.2.2.1 hs.2.2.2.1 hs.2.2.2.2.1 hs.2.2.2.2.2

theorem photonFold_frame (mat : Material) (env : DataEnv) (E : ℚ) :
    ∀ (l : List ℕ) (st : PhotonLoopState),
    (List.foldl (photonStep mat env E) st l).macro_xs.absorption =
      st.macro_xs.absorption ∧
    (List.foldl (photonStep mat env E) st l).macro_xs.fission =
      st.macro_xs.fission ∧
    (List.foldl (photonStep mat env E) st l).macro_xs.nu_fission =
      st.macro_xs.nu_fission ∧
    (List.foldl (photonStep mat env E) st l).macro_xs.photon_prod =
      st.macro_xs.photon_prod := by
  intro l
  induction l with
  | nil => intro st; exact ⟨rfl, rfl, rfl, rfl⟩
  | cons a t ih => intro st; exact ih (photonStep mat env E st a)

/-- C5 amended: `Material::calculate_xs` resets total, absorption, fission
and ν-fission before evaluation for both particle types (the results on
these fields are independent of the accumulator's prior values), and the
photon evaluation additionally resets the four photon partials; the
photon-production field is never reset, and the neutron evaluation leaves
the photon partials at their prior values. -/
theorem calculate_xs_resets (mat : Material) (env : DataEnv) (ptype : ℤ)
    (E sqrtkT : ℚ) (micro : ℕ → NuclideMicroXS) (ph : ℕ → ElementMicroXS)
    (g1 g2 : MaterialMacroXS) :
    ((mat.calculate_xs env ptype E sqrtkT micro ph g1).macro_xs.total =
       (mat.calculate_xs env ptype E sqrtkT micro ph g2).macro_xs.total ∧
     (mat.calculate_xs env ptype E sqrtkT micro ph g1).macro_xs.absorption =
       (mat.calculate_xs env ptype E sqrtkT micro ph
         g2).macro_xs.absorption ∧
     (mat.calculate_xs env ptype E sqrtkT micro ph g1).macro_xs.fission =
       (mat.calculate_xs env ptype E sqrtkT micro ph g2).macro_xs.fission ∧
     (mat.calculate_xs env ptype E sqrtkT micro ph g1).macro_xs.nu_fission =
       (mat.calculate_xs env ptype E sqrtkT micro ph
         g2).macro_xs.nu_fission) ∧
    (ptype = PHOTON →
      (mat.calculate_xs env ptype E sqrtkT micro ph g1).macro_xs.coherent =
        (mat.calculate_xs env ptype E sqrtkT micro ph
          g2).macro_xs.coherent ∧
      (mat.calculate_xs env ptype E sqrtkT micro ph
          g1).macro_xs.incoherent =
        (mat.calculate_xs env ptype E sqrtkT micro ph
          g2).macro_xs.incoherent ∧
      (mat.calculate_xs env ptype E sqrtkT micro ph
          g1).macro_xs.photoelectric =
        (mat.calculate_xs env ptype E sqrtkT micro ph
          g2).macro_xs.photoelectric ∧
      (mat.calculate_xs env ptype E sqrtkT micro ph
          g1).macro_xs.pair_production =
        (mat.calculate_xs env ptype E sqrtkT micro ph
          g2).macro_xs.pair_production) ∧
    (ptype = NEUTRON →
      (mat.calculate_xs env ptype E sqrtkT micro ph g1).macro_xs.coherent =
        g1.coherent ∧
      (mat.calculate_xs env ptype E sqrtkT micro ph
          g1).macro_xs.incoherent = g1.incoherent ∧
      (mat.calculate_xs env ptype E sqrtkT micro ph
          g1).macro_xs.photoelectric = g1.photoelectric ∧
      (mat.calculate_xs env ptype E sqrtkT micro ph
          g1).macro_xs.pair_production = g1.pair_production ∧
      (mat.calculate_xs env ptype E sqrtkT micro ph
          g1).macro_xs.photon_prod = g1.photon_prod) ∧
    (ptype = PHOTON →
      (mat.calculate_xs env ptype E sqrtkT micro ph
          g1).macro_xs.photon_prod = g1.photon_prod) := by
  by_cases hn : ptype = NEUTRON
  · subst hn
    have hcong := neutronFold_congr mat env E sqrtkT (env.log_grid_index E)
      (List.range mat.nuclide_.length)
      { micro_xs := micro, j := 0,
        check_sab := decide (0 < mat.thermal_tables_.length),
        macro_xs :=
          { g1 with
            total := 0, absorption := 0, fission := 0, nu_fission := 0 },
        invoked := [] }
      { micro_xs := micro, j := 0,
        check_sab := decide (0 < mat.thermal_tables_.length),
        macro_xs :=
          { g2 with
            total := 0, absorption := 0, fission := 0, nu_fission := 0 },
        invoked := [] } rfl rfl rfl rfl rfl rfl rfl
    have hfr := neutronFold_frame mat env E sqrtkT (env.log_grid_index E)
      (List.range mat.nuclide_.length)
      { micro_xs := micro, j := 0,
        check_sab := decide (0 < mat.thermal_tables_.length),
        macro_xs :=
          { g1 with
            total := 0, absorption := 0, fission := 0, nu_fission := 0 },
        invoked := [] }
    exact ⟨⟨hcong.1, hcong.2.1, hcong.2.2.1, hcong.2.2.2⟩,
      fun hp => absurd hp (by decide),
      fun _ => ⟨hfr.2.1, hfr.2.2.1, hfr.2.2.2.1, hfr.2.2.2.2, hfr.1⟩,
      fun hp => absurd hp (by decide)⟩
  · by_cases hp : ptype = PHOTON
    · subst hp
      have hcong := photonFold_congr mat env E
        (List.range mat.nuclide_.length)
        { micro_photon_xs := ph,
          macro_xs :=
            { g1 with
              total := 0, absorption := 0, fission := 0, nu_fission := 0,
              coherent := 0, incoherent := 0, photoelectric := 0,
              pair_production := 0 },
          invoked := [] }
        { micro_photon_xs := ph,
          macro_xs :=
            { g2 with
              total := 0, absorption := 0, fission := 0, nu_fission := 0,
              coherent := 0, incoherent := 0, photoelectric := 0,
              pair_production := 0 },
          invoked := [] } rfl rfl rfl rfl rfl rfl
      have hfr1 := photonFold_frame mat env E
        (List.range mat.nuclide_.length)
        { micro_photon_xs := ph,
          macro_xs :=
            { g1 with
              total := 0, absorption := 0, fission := 0, nu_fission := 0,
              coherent := 0, incoherent := 0, photoelectric := 0,
              pair_production := 0 },
          invoked := [] }
      have hfr2 := photonFold_frame mat env E
        (List.range mat.nuclide_.length)
        { micro_photon_xs := ph,
          macro_xs :=
            { g2 with
              total := 0, absorption := 0, fission := 0, nu_fission := 0,
              coherent := 0, incoherent := 0, photoelectric := 0,
              pair_production := 0 },
          invoked := [] }
      exact ⟨⟨hcong.1, hfr1.1.trans hfr2.1.symm,
        hfr1.2.1.trans hfr2.2.1.symm, hfr1.2.2.1.trans hfr2.2.2.1.symm⟩,
        fun _ => ⟨hcong.2.1, hcong.2.2.1, hcong.2.2.2.1, hcong.2.2.2.2⟩,
        fun h => absurd h hn,
        fun _ => hfr1.2.2.2⟩
    · unfold Material.calculate_xs
      simp only [if_neg hn, if_neg hp]
      exact ⟨⟨by trivial, by trivial, by trivial, by trivial⟩,
        fun h => absurd h hp, fun h => absurd h hn, fun h => absurd h hp⟩

/-- Prior accumulator values for the C5 counterexample. -/
def macroW5 : MaterialMacroXS :=
  { total := 5, absorption := 5, fission := 5, nu_fission := 5,
    photon_prod := 1, coherent := 2, incoherent := 2, photoelectric := 2,
    pair_production := 2 }

/-- C5 counterexample: a neutron-mode evaluation leaves both the
photon-production field and the photon partials of the per-thread
accumulator at their prior non-zero values — neither is reset to zero, so
not every MacroXS field is reset before each material-level evaluation
for both particle types. -/
theorem calculate_xs_reset_counterexample :
    (emptyMaterial.calculate_xs envW NEUTRON 1 0 (fun _ => microZero)
      (fun _ => elemZero) macroW5).macro_xs.photon_prod = 1 ∧
    (emptyMaterial.calculate_xs envW NEUTRON 1 0 (fun _ => microZero)
      (fun _ => elemZero) macroW5).macro_xs.coherent = 2 ∧
    (1 : ℚ) ≠ 0 ∧ (2 : ℚ) ≠ 0 := by
  refine ⟨rfl, rfl, by norm_num, by norm_num⟩

/-- Second prior accumulator for the C5 witness. -/
def macroW5b : MaterialMacroXS :=
  { total := 11, absorption := 12, fission := 13, nu_fission := 14,
    photon_prod := 15, coherent := 16, incoherent := 17,
    photoelectric := 18, pair_production := 19 }

/-- Witness for C5 at a concrete neutron evaluation: the core fields are
independent of the prior accumulator, the photon partials pass through. -/
theorem calculate_xs_resets_witness :
    (emptyMaterial.calculate_xs envW NEUTRON 1 0 (fun _ => microZero)
      (fun _ => elemZero) macroW5).macro_xs.total =
    (emptyMaterial.calculate_xs envW NEUTRON 1 0 (fun _ => microZero)
      (fun _ => elemZero) macroW5b).macro_xs.total ∧
    (emptyMaterial.calculate_xs envW NEUTRON 1 0 (fun _ => microZero)
      (fun _ => elemZero) macroW5).macro_xs.coherent = macroW5.coherent :=
  let h := calculate_xs_resets emptyMaterial envW NEUTRON 1 0
    (fun _ => microZero) (fun _ => elemZero) macroW5 macroW5b
  ⟨h.1.1, (h.2.2.1 rfl).1⟩

/-! ## init_nuclide_index (material.cpp lines 634-643) -/

/-- Model of `Material::init_nuclide_index` (material.cpp lines 634-643):
the reverse index is resized to the global nuclide count, filled with
C_NONE, and then each local slot `i` is written at position
`nuclide_[i]`. -/
def Material.init_nuclide_index (mat : Material) (n_global : ℕ) :
    Material :=
  { mat with
    mat_nuclide_index_ :=
      (List.range mat.nuclide_.length).foldl
        (fun v i => v.set (mat.nuclide_.getD i 0) (i : ℤ))
        (List.replicate n_global C_NONE) }

theorem listGetD_set_ne {α : Type} (l : List α) (i j : ℕ) (a d : α)
    (h : i ≠ j) : (l.set i a).getD j d = l.getD j d := by
  rw [List.getD_eq_getElem?_getD, List.getElem?_set_ne h,
    ← List.getD_eq_getElem?_getD]

theorem listGetD_set_eq {α : Type} (l : List α) (i : ℕ) (a d : α)
    (h : i < l.length) : (l.set i a).getD i d = a := by
  rw [List.getD_eq_getElem?_getD, List.getElem?_set_self]
  · rfl
  · exact h

theorem nuclideIndexFold_length (mat : Material) :
    ∀ (l : List ℕ) (v : List ℤ),
    (l.foldl (fun v i => v.set (mat.nuclide_.getD i 0) (i : ℤ)) v).length =
      v.length := by
  intro l
  induction l with
  | nil => intro v; rfl
  | cons a t ih =>
      intro v
      rw [List.foldl_cons, ih]
      exact List.length_set v ..

theorem nuclideIndexFold_not_mem (mat : Material) :
    ∀ (l : List ℕ) (v : List ℤ) (g : ℕ),
    (∀ i ∈ l, mat.nuclide_.getD i 0 ≠ g) →
    (l.foldl (fun v i => v.set (mat.nuclide_.getD i 0) (i : ℤ)) v).getD g 0 =
      v.getD g 0 := by
  intro l
  induction l with
  | nil => intro v g _; rfl
  | cons a t ih =>
      intro v g h
      rw [List.foldl_cons, ih _ g (fun i hi => h i (List.mem_cons_of_mem _ hi)),
        listGetD_set_ne _ _ _ _ _ (h a (List.mem_cons_self a t))]

theorem nuclideIndexFold_slot (mat : Material) (n_global : ℕ)
    (hnodup : mat.nuclide_.Nodup)
    (hbound : ∀ g ∈ mat.nuclide_, g < n_global) :
    ∀ n, n ≤ mat.nuclide_.length → ∀ k, k < n →
    ((List.range n).foldl (fun v i => v.set (mat.nuclide_.getD i 0) (i : ℤ))
      (List.replicate n_global C_NONE)).getD (mat.nuclide_.getD k 0) 0 =
      (k : ℤ) := by
  intro n
  induction n with
  | zero => intro _ k hk; omega
  | succ n ih =>
      intro hn k hk
      rw [List.range_succ, List.foldl_append, List.foldl_cons,
        List.foldl_nil]
      by_cases hkn : k = n
      · subst hkn
        apply listGetD_set_eq
        rw [nuclideIndexFold_length mat, List.length_replicate]
        refine hbound _ ?_
        rw [List.getD_eq_getElem mat.nuclide_ 0 (show k < mat.nuclide_.length by omega)]
        exact List.getElem_mem _
      · have hk' : k < n := by omega
        have hne : mat.nuclide_.getD n 0 ≠ mat.nuclide_.getD k 0 := by
          rw [List.getD_eq_getElem _ _ (show n < mat.nuclide_.length by omega),
            List.getD_eq_getElem _ _ (show k < mat.nuclide_.length by omega)]
          intro hcontra
          exact hkn ((hnodup.getElem_inj_iff.mp hcontra.symm))
        rw [listGetD_set_ne _ _ _ _ _ hne]
        exact ih (by omega) k hk'

/-- Material with a duplicated nuclide slot: the source's own constructor
produces such a state when the same nuclide name is listed twice (both
lookups of `data::nuclide_map` return the same global index). -/
def matDup : Material := { emptyMaterial with nuclide_ := [0, 0] }

/-- C6 counterexample: with `nuclide_ = [0, 0]` (slot 0 and slot 1 hold
the same global nuclide), the loop leaves `mat_nuclide_index[nuclide_[0]]
= 1 ≠ 0`, so the claimed equality `mat_nuclide_index[nuclide_[k]] = k for
every k` fails at k = 0. -/
theorem init_nuclide_index_counterexample :
    (matDup.init_nuclide_index 1).mat_nuclide_index_.getD
      (matDup.nuclide_.getD 0 0) 0 = 1 ∧ (1 : ℤ) ≠ 0 := by
  refine ⟨by decide, by decide⟩

/-- C6 amended: provided the material's nuclide list has no duplicate
entries (and all global ids are within the global table), after
`init_nuclide_index` the reverse index maps `nuclide_[k]` to `k` for every
local slot `k` and every other global id below the table size to −1.
(With a duplicated entry, the earlier slot instead maps to the last slot
holding that nuclide — see the counterexample.) -/
theorem init_nuclide_index_inverse (mat : Material) (n_global : ℕ)
    (hnodup : mat.nuclide_.Nodup)
    (hbound : ∀ g ∈ mat.nuclide_, g < n_global) :
    (∀ k, k < mat.nuclide_.length →
      (mat.init_nuclide_index n_global).mat_nuclide_index_.getD
        (mat.nuclide_.getD k 0) 0 = (k : ℤ)) ∧
    (∀ g, g < n_global → g ∉ mat.nuclide_ →
      (mat.init_nuclide_index n_global).mat_nuclide_index_.getD g 0 =
        C_NONE) := by
  constructor
  · intro k hk
    exact nuclideIndexFold_slot mat n_global hnodup hbound
      mat.nuclide_.length le_rfl k hk
  · intro g hg hnot
    unfold Material.init_nuclide_index
    dsimp only
    rw [nuclideIndexFold_not_mem mat]
    · rw [List.getD_eq_getElem _ _ (by simpa using hg)]
      simp
    · intro i hi hcontra
      rw [List.mem_range] at hi
      apply hnot
      rw [← hcontra, List.getD_eq_getElem _ _ hi]
      exact List.getElem_mem _

/-- Witness geometry for C6: two distinct nuclides. -/
def matW6 : Material := { emptyMaterial with nuclide_ := [2, 0] }

/-- Witness for C6 on a duplicate-free material. -/
theorem init_nuclide_index_inverse_witness :
    (matW6.init_nuclide_index 3).mat_nuclide_index_.getD 2 0 = 0 ∧
    (matW6.init_nuclide_index 3).mat_nuclide_index_.getD 1 0 = C_NONE :=
  let h := init_nuclide_index_inverse matW6 3 (by decide)
    (by decide)
  ⟨h.1 0 (by decide), h.2 1 (by decide) (by decide)⟩

/-! ## set_density (material.cpp lines 768-807) -/

/-- Modelled from the spec: physical constants from constants.h (not among
the provided sources) used by the density conversions — the neutron mass
in amu and Avogadro's number in 10^24/mol units. Only their values being
fixed non-zero rationals ever matters to the claims. -/
def MASS_NEUTRON : ℚ := 1.00866491588

def N_AVOGADRO : ℚ := 0.6022140857

/-- Modelled from the spec: error codes of the C boundary API (capi.h is
not among the provided sources); the spec lists the codes by name, and
only their distinctness from 0 matters. -/
def OPENMC_E_OUT_OF_BOUNDS : ℤ := -1

def OPENMC_E_ALLOCATE : ℤ := -2

def OPENMC_E_INVALID_ID : ℤ := -3

def OPENMC_E_INVALID_ARGUMENT : ℤ := -4

/-- Density unit strings accepted by `set_density`; `invalid` stands for
every other string. -/
inductive DensityUnits
  | atom_b_cm
  | g_cm3
  | g_cc
  | invalid
deriving DecidableEq

/-- Model of `Material::set_density` (material.cpp lines 768-807),
returning the updated material and the error code. The two mass-density
unit strings share one branch in the source. -/
def Material.set_density (mat : Material) (env : DataEnv) (density : ℚ)
    (units : DensityUnits) : Material × ℤ :=
  if mat.nuclide_ = [] then (mat, OPENMC_E_ALLOCATE)
  else
    match units with
    | DensityUnits.atom_b_cm =>
        let ad := mat.atom_density_.map
          fun a => a / mat.atom_density_.sum * density
        ({ mat with
            density_ := density, atom_density_ := ad,
            density_gpcc_ :=
              ((List.range mat.nuclide_.length).map fun i =>
                ad.getD i 0 *
                (env.nuclides.getD (mat.nuclide_.getD i 0)
                  defaultNuclide).awr * MASS_NEUTRON / N_AVOGADRO).sum },
         0)
    | DensityUnits.g_cm3 | DensityUnits.g_cc =>
        ({ mat with
            density_gpcc_ := density,
            density_ := mat.density_ * (density / mat.density_gpcc_),
            atom_density_ := mat.atom_density_.map
              fun a => a * (density / mat.density_gpcc_) },
         0)
    | DensityUnits.invalid => (mat, OPENMC_E_INVALID_ARGUMENT)

theorem set_density_atom_spec (m : Material) (env : DataEnv) (v : ℚ)
    (hm : m.nuclide_ ≠ []) :
    (m.set_density env v DensityUnits.atom_b_cm).1.atom_density_ =
      m.atom_density_.map (fun a => a / m.atom_density_.sum * v) ∧
    (m.set_density env v DensityUnits.atom_b_cm).1.nuclide_ =
      m.nuclide_ ∧
    (m.set_density env v DensityUnits.atom_b_cm).2 = 0 := by
  unfold Material.set_density
  rw [if_neg hm]
  exact ⟨rfl, rfl, rfl⟩

theorem sum_map_div_mul (A : List ℚ) (S v : ℚ) :
    (A.map fun a => a / S * v).sum = A.sum / S * v := by
  have h1 : (A.map fun a => a / S * v) = A.map fun a => id a * (v / S) :=
    List.map_congr_left fun a _ => by
      show a / S * v = a * (v / S)
      ring
  rw [h1, List.sum_map_mul_right, List.map_id]
  ring

/-- C7 amended: for a non-empty material whose total atom/b-cm density
equals the sum of its per-nuclide atom densities (the post-finalize
invariant), with that sum and the new value non-zero,
`set_density(x, atom/b-cm)` followed by `set_density` of the previous
total restores every per-nuclide atom density exactly. (At `x = 0` the
round trip fails — see the counterexample: the first call zeroes every
density and the second divides by the zero sum.) -/
theorem set_density_roundtrip (mat : Material) (env : DataEnv) (x : ℚ)
    (hne : mat.nuclide_ ≠ [])
    (hsum : mat.density_ = mat.atom_density_.sum)
    (hS : mat.atom_density_.sum ≠ 0) (hx : x ≠ 0) :
    ((mat.set_density env x DensityUnits.atom_b_cm).1.set_density env
      mat.density_ DensityUnits.atom_b_cm).1.atom_density_ =
      mat.atom_density_ := by
  obtain ⟨ha1, hn1, -⟩ := set_density_atom_spec mat env x hne
  have hne1 : (mat.set_density env x DensityUnits.atom_b_cm).1.nuclide_ ≠
      ([] : List ℕ) := by
    rw [hn1]; exact hne
  obtain ⟨ha2, -, -⟩ := set_density_atom_spec
    (mat.set_density env x DensityUnits.atom_b_cm).1 env mat.density_ hne1
  rw [ha2, ha1, sum_map_div_mul mat.atom_density_ mat.atom_density_.sum x,
    div_self hS, one_mul, List.map_map]
  have hpt : ∀ a ∈ mat.atom_density_,
      ((fun a => a / x * mat.density_) ∘
        (fun a => a / mat.atom_density_.sum * x)) a = a := by
    intro a _
    show a / mat.atom_density_.sum * x / x * mat.density_ = a
    rw [hsum]
    field_simp
    ring
  exact (List.map_congr_left hpt).trans (by simp)

/-- Witness material for C7. -/
def matW7 : Material :=
  { emptyMaterial with
    nuclide_ := [0], atom_density_ := [4], density_ := 4 }

/-- Witness for C7 at a concrete material. -/
theorem set_density_roundtrip_witness :
    ((matW7.set_density envW 9 DensityUnits.atom_b_cm).1.set_density envW
      matW7.density_ DensityUnits.atom_b_cm).1.atom_density_ =
      matW7.atom_density_ :=
  set_density_roundtrip matW7 envW 9 (by decide)
    (by norm_num [matW7, emptyMaterial]) (by norm_num [matW7, emptyMaterial])
    (by norm_num)

/-- C7 counterexample: calling `set_density(0, atom/b-cm)` zeroes every
per-nuclide density, and the restoring call then divides each entry by
the now-zero density sum (material.cpp lines 780-781) — `0/0`, NaN in the
source's IEEE arithmetic, 0 in this rational model — so the original
densities `[4]` are not restored: the unconditional round-trip claim
fails at the value 0. -/
theorem set_density_roundtrip_counterexample :
    ((matW7.set_density envW 0 DensityUnits.atom_b_cm).1.set_density envW
      matW7.density_ DensityUnits.atom_b_cm).1.atom_density_ = [0] ∧
    matW7.atom_density_ = [4] ∧ ((0 : ℚ) ≠ 4) := by
  obtain ⟨ha1, hn1, -⟩ := set_density_atom_spec matW7 envW 0 (by decide)
  have hne1 : (matW7.set_density envW 0 DensityUnits.atom_b_cm).1.nuclide_ ≠
      ([] : List ℕ) := by
    rw [hn1]; decide
  obtain ⟨ha2, -, -⟩ := set_density_atom_spec
    (matW7.set_density envW 0 DensityUnits.atom_b_cm).1 envW matW7.density_
    hne1
  refine ⟨?_, by norm_num [matW7, emptyMaterial], by norm_num⟩
  rw [ha2, ha1]
  norm_num [matW7, emptyMaterial]

/-! ## C API registry state (material.cpp lines 36-41 and 895-1078) -/

/-- Global material registry: the `model::materials` vector and the
`model::material_map` id → zero-based index unordered map, the latter
modelled as a function. -/
structure MaterialState where
  materials : List Material
  material_map : ℤ → Option ℕ

/-- Model of `openmc_material_add_nuclide` (material.cpp lines 908-953).
`load_err` and `nuclide_map` model the external `openmc_load_nuclide`
collaborator and the post-load `data::nuclide_map` lookup used on the
absent-name path. On that path the source writes `atom_density(n)` on an
`n`-element array — one past the end; the out-of-range write is modelled
by the no-op out-of-range `List.set`. -/
def openmc_material_add_nuclide (s : MaterialState) (env : DataEnv)
    (load_err : ℕ → ℤ) (nuclide_map : ℕ → ℕ) (index : ℤ) (name : ℕ)
    (density : ℚ) : MaterialState × ℤ :=
  if 1 ≤ index ∧ index ≤ s.materials.length then
    let mi := (index - 1).toNat
    let mat := s.materials.getD mi emptyMaterial
    match (List.range mat.nuclide_.length).find? (fun i =>
      decide ((env.nuclides.getD (mat.nuclide_.getD i 0)
        defaultNuclide).name = name)) with
    | some i =>
        let awr := (env.nuclides.getD (mat.nuclide_.getD i 0)
          defaultNuclide).awr
        let old := mat.atom_density_.getD i 0
        ({ s with
            materials := s.materials.set mi
              { mat with
                density_ := mat.density_ + (density - old),
                density_gpcc_ := mat.density_gpcc_ +
                  (density - old) * awr * MASS_NEUTRON / N_AVOGADRO,
                atom_density_ := mat.atom_density_.set i density } }, 0)
    | none =>
        let err := load_err name
        if err = 0 then
          let i_nuc := nuclide_map name
          let n := mat.nuclide_.length + 1
          ({ s with
              materials := s.materials.set mi
                { mat with
                  nuclide_ := mat.nuclide_ ++ [i_nuc],
                  atom_density_ := (mat.atom_density_ ++ [0]).set n density,
                  density_ := mat.density_ + density,
                  density_gpcc_ := mat.density_gpcc_ + density *
                    (env.nuclides.getD i_nuc defaultNuclide).awr *
                    MASS_NEUTRON / N_AVOGADRO } }, 0)
        else (s, err)
  else (s, OPENMC_E_OUT_OF_BOUNDS)

/-- C9: when `openmc_material_add_nuclide` is given a name already present
in the material, it returns 0 and updates the first matching slot in
place: the nuclide list is unchanged, the slot's atom density becomes the
given value, `density_` changes by exactly the density delta and
`density_gpcc_` by the delta scaled by `awr · MASS_NEUTRON /
N_AVOGADRO`. -/
theorem add_nuclide_existing (s : MaterialState) (env : DataEnv)
    (load_err : ℕ → ℤ) (nuclide_map : ℕ → ℕ) (index : ℤ) (name : ℕ)
    (density : ℚ) (i0 : ℕ)
    (hidx : 1 ≤ index ∧ index ≤ s.materials.length)
    (hfound : (List.range (s.materials.getD (index - 1).toNat
        emptyMaterial).nuclide_.length).find? (fun i =>
      decide ((env.nuclides.getD
        ((s.materials.getD (index - 1).toNat emptyMaterial).nuclide_.getD
          i 0) defaultNuclide).name = name)) = some i0) :
    (openmc_material_add_nuclide s env load_err nuclide_map index name
      density).2 = 0 ∧
    (openmc_material_add_nuclide s env load_err nuclide_map index name
      density).1.materials.length = s.materials.length ∧
    ((openmc_material_add_nuclide s env load_err nuclide_map index name
      density).1.materials.getD (index - 1).toNat emptyMaterial).nuclide_ =
      (s.materials.getD (index - 1).toNat emptyMaterial).nuclide_ ∧
    ((openmc_material_add_nuclide s env load_err nuclide_map index name
      density).1.materials.getD (index - 1).toNat
        emptyMaterial).atom_density_ =
      (s.materials.getD (index - 1).toNat emptyMaterial).atom_density_.set
        i0 density ∧
    ((openmc_material_add_nuclide s env load_err nuclide_map index name
      density).1.materials.getD (index - 1).toNat emptyMaterial).density_ =
      (s.materials.getD (index - 1).toNat emptyMaterial).density_ +
        (density - (s.materials.getD (index - 1).toNat
          emptyMaterial).atom_density_.getD i0 0) ∧
    ((openmc_material_add_nuclide s env load_err nuclide_map index name
      density).1.materials.getD (index - 1).toNat
        emptyMaterial).density_gpcc_ =
      (s.materials.getD (index - 1).toNat emptyMaterial).density_gpcc_ +
        (density - (s.materials.getD (index - 1).toNat
          emptyMaterial).atom_density_.getD i0 0) *
        (env.nuclides.getD
          ((s.materials.getD (index - 1).toNat emptyMaterial).nuclide_.getD
            i0 0) defaultNuclide).awr * MASS_NEUTRON / N_AVOGADRO := by
  have hmi : (index - 1).toNat < s.materials.length := by omega
  unfold openmc_material_add_nuclide
  rw [if_pos hidx]
  dsimp only
  rw [hfound]
  dsimp only
  refine ⟨rfl, by simp, ?_, ?_, ?_, ?_⟩ <;>
    rw [listGetD_set_eq _ _ _ _ hmi]

/-- Registry with one one-nuclide material for the C9 and C10
witnesses. -/
def stateW9 : MaterialState :=
  { materials :=
      [{ emptyMaterial with
         id_ := 42, nuclide_ := [0], atom_density_ := [5], density_ := 5 }],
    material_map := fun k => if k = 42 then some 0 else none }

/-- Witness for C9: updating the already present nuclide (name token 10)
leaves the list length alone and overwrites the slot density. -/
theorem add_nuclide_existing_witness :
    (openmc_material_add_nuclide stateW9 envW (fun _ => -1) (fun _ => 0) 1
      10 7).2 = 0 ∧
    ((openmc_material_add_nuclide stateW9 envW (fun _ => -1) (fun _ => 0) 1
      10 7).1.materials.getD 0 emptyMaterial).atom_density_ = [7] ∧
    ((openmc_material_add_nuclide stateW9 envW (fun _ => -1) (fun _ => 0) 1
      10 7).1.materials.getD 0 emptyMaterial).nuclide_ = [0] :=
  let h := add_nuclide_existing stateW9 envW (fun _ => -1) (fun _ => 0) 1
    10 7 0 (by decide) rfl
  ⟨h.1, h.2.2.2.1, h.2.2.1⟩

/-- Model of `openmc_material_set_id` (material.cpp lines 1067-1078):
overwrite the material's id and insert-or-assign the map entry for the new
id; no other map entry is touched. -/
def openmc_material_set_id (s : MaterialState) (index : ℤ) (id : ℤ) :
    MaterialState × ℤ :=
  if 1 ≤ index ∧ index ≤ s.materials.length then
    let mi := (index - 1).toNat
    ({ materials := s.materials.set mi
        { s.materials.getD mi emptyMaterial with id_ := id },
       material_map := fun k =>
         if k = id then some mi else s.material_map k }, 0)
  else (s, OPENMC_E_OUT_OF_BOUNDS)

/-- Model of `openmc_get_material_index` (material.cpp lines 895-906):
the one-based index for a mapped id, the invalid-id error otherwise (the
output argument is left at 0 on the error path). -/
def openmc_get_material_index (s : MaterialState) (id : ℤ) : ℤ × ℤ :=
  match s.material_map id with
  | some i => ((i : ℤ) + 1, 0)
  | none => (0, OPENMC_E_INVALID_ID)

/-- C10: `openmc_material_set_id` adds (or overwrites) only the map entry
of the new id; every other entry is unchanged, so looking up the
material's old id afterwards still succeeds and returns the same
one-based material index as before. -/
theorem set_id_preserves_old_lookup (s : MaterialState)
    (index new_id : ℤ)
    (hidx : 1 ≤ index ∧ index ≤ s.materials.length)
    (hmap : s.material_map
      (s.materials.getD (index - 1).toNat emptyMaterial).id_ =
      some (index - 1).toNat) :
    (∀ k, k ≠ new_id →
      (openmc_material_set_id s index new_id).1.material_map k =
        s.material_map k) ∧
    openmc_get_material_index (openmc_material_set_id s index new_id).1
      (s.materials.getD (index - 1).toNat emptyMaterial).id_ =
      openmc_get_material_index s
        (s.materials.getD (index - 1).toNat emptyMaterial).id_ ∧
    (openmc_get_material_index (openmc_material_set_id s index new_id).1
      (s.materials.getD (index - 1).toNat emptyMaterial).id_).2 = 0 := by
  unfold openmc_material_set_id openmc_get_material_index
  rw [if_pos hidx]
  dsimp only
  refine ⟨fun k hk => if_neg hk, ?_, ?_⟩
  · by_cases hold :
      (s.materials.getD (index - 1).toNat emptyMaterial).id_ = new_id
    · rw [if_pos hold, hmap]
    · rw [if_neg hold]
  · by_cases hold :
      (s.materials.getD (index - 1).toNat emptyMaterial).id_ = new_id
    · rw [if_pos hold]
    · rw [if_neg hold, hmap]

/-- Witness for C10: after changing material 1's id from 42 to 99, the
lookup of 42 still returns index 1. -/
theorem set_id_preserves_old_lookup_witness :
    (openmc_material_set_id stateW9 1 99).1.material_map 42 =
      stateW9.material_map 42 ∧
    (openmc_get_material_index (openmc_material_set_id stateW9 1 99).1
      ((stateW9.materials.getD 0 emptyMaterial).id_)).2 = 0 :=
  let h := set_id_preserves_old_lookup stateW9 1 99 (by decide) rfl
  ⟨h.1 42 (by decide), h.2.2⟩

end OpenMC
